import Mathlib

/-!
Verification of the OpenTESArena software renderer core (`SoftwareRenderer`).

The C++ source is embedded shallowly: `double` arithmetic is modelled by `ℚ`
(exact arithmetic; all properties checked here are algebraic, not
floating-point rounding facts), fixed-capacity arrays by `List`s whose length
is tracked explicitly, and `static_cast<int>` by truncation toward zero.
Definitions follow the source of `SoftwareRenderer.cpp` (the SoA variant,
`src/unnamed/part_006`) statement by statement; small math helpers whose
headers are not part of the source snapshot (`Vector2/Vector4::lerp`,
`Double2::cross`) are modelled from the spec and marked as such.
-/

namespace SWRender

attribute [local semireducible] Rat.mul Rat.add Rat.sub Rat.inv

/-- `std::clamp(v, lo, hi)` for rationals, mirroring the C++ semantics
`v < lo ? lo : (hi < v ? hi : v)`. -/
def clampQ (v lo hi : ℚ) : ℚ :=
  if v < lo then lo else if hi < v then hi else v

/-- `std::clamp(v, lo, hi)` for integers. -/
def clampZ (v lo hi : ℤ) : ℤ :=
  if v < lo then lo else if hi < v then hi else v

/-- `static_cast<int>(d)` for a rational `d`: truncation toward zero. -/
def cppToInt (q : ℚ) : ℤ :=
  if 0 ≤ q then ⌊q⌋ else -⌊-q⌋

/-- 4-component vector of doubles (`Double4`). -/
structure Double4 where
  x : ℚ
  y : ℚ
  z : ℚ
  w : ℚ
deriving DecidableEq, Repr, Inhabited

/-- 2-component vector of doubles (`Double2`). -/
structure Double2 where
  x : ℚ
  y : ℚ
deriving DecidableEq, Repr, Inhabited

/-- Modelled from the spec: `Double4::lerp(other, t)` — the 4-vector math
header is not in the source snapshot; the spec requires all 4 position
components interpolated linearly by the same parameter `t`. -/
def Double4.lerp (a b : Double4) (t : ℚ) : Double4 :=
  ⟨a.x + (b.x - a.x) * t, a.y + (b.y - a.y) * t,
   a.z + (b.z - a.z) * t, a.w + (b.w - a.w) * t⟩

/-- Modelled from the spec: `Double2::lerp(other, t)` — UV coordinates
interpolated linearly by the same parameter `t` as positions. -/
def Double2.lerp (a b : Double2) (t : ℚ) : Double2 :=
  ⟨a.x + (b.x - a.x) * t, a.y + (b.y - a.y) * t⟩

/-- Modelled from the spec: `Double2::cross(other) = x*other.y - y*other.x`
(standard 2D cross product used by the rasterizer's signed-area test). -/
def Double2.cross (a b : Double2) : ℚ :=
  a.x * b.y - a.y * b.x

/-- Subtraction of screen-space points (`operator-`). -/
def Double2.sub (a b : Double2) : Double2 :=
  ⟨a.x - b.x, a.y - b.y⟩

/-! ## Clipping stage (`ProcessClipping`, part_006 lines 1281–1529)

One clip-space triangle together with its per-vertex UVs, exactly the data
tracked by the parallel arrays `clipSpaceTriangleV0s..UV2s`. -/

structure ClipTriangle where
  v0 : Double4
  v1 : Double4
  v2 : Double4
  uv0 : Double2
  uv1 : Double2
  uv2 : Double2
deriving DecidableEq, Repr, Inhabited

/-- Component selected for plane `clipPlaneIndex`: x for planes 0–1, y for
planes 2–3, z for planes 4–5 (part_006 lines 1296–1313). -/
def planeComponent (clipPlaneIndex : ℕ) (v : Double4) : ℚ :=
  if clipPlaneIndex = 0 ∨ clipPlaneIndex = 1 then v.x
  else if clipPlaneIndex = 2 ∨ clipPlaneIndex = 3 then v.y
  else v.z

/-- `comparisonSign`: `+1` for even plane indices, `-1` for odd
(part_006 lines 1315–1330). -/
def comparisonSign (clipPlaneIndex : ℕ) : ℚ :=
  if clipPlaneIndex % 2 = 0 then 1 else -1

/-- The `w` term added to the component: `+w` for even planes, `-w` for odd. -/
def signedW (clipPlaneIndex : ℕ) (v : Double4) : ℚ :=
  if clipPlaneIndex % 2 = 0 then v.w else -v.w

/-- `v0Diff`/`v1Diff`/`v2Diff`: the signed distance used for classification,
`component + (±w)` (part_006 lines 1332–1334). -/
def vertexDiff (clipPlaneIndex : ℕ) (v : Double4) : ℚ :=
  planeComponent clipPlaneIndex v + signedW clipPlaneIndex v

/-- `isV*Inside`: `(diff * comparisonSign) >= 0.0` (part_006 lines 1335–1337). -/
def isVertexInside (clipPlaneIndex : ℕ) (v : Double4) : Prop :=
  0 ≤ vertexDiff clipPlaneIndex v * comparisonSign clipPlaneIndex

instance (i : ℕ) (v : Double4) : Decidable (isVertexInside i v) := by
  unfold isVertexInside; infer_instance

/-- Clip one triangle against one of the 6 homogeneous planes, the `switch`
on `insideMaskIndex` of part_006 lines 1347–1503, producing 0–2 triangles in
the exact vertex/UV orders of the source. -/
def clipTrianglePlane (i : ℕ) (tri : ClipTriangle) : List ClipTriangle :=
  let d0 := vertexDiff i tri.v0
  let d1 := vertexDiff i tri.v1
  let d2 := vertexDiff i tri.v2
  let insideMaskIndex : ℕ :=
    (if isVertexInside i tri.v2 then 0 else 1) +
    (if isVertexInside i tri.v1 then 0 else 2) +
    (if isVertexInside i tri.v0 then 0 else 4)
  match insideMaskIndex with
  | 0 => [tri]
  | 1 =>
    -- Inside: V0, V1; outside: V2. Becomes quad.
    let v1v2PointT := d1 / (d1 - d2)
    let v2v0PointT := d2 / (d2 - d0)
    let v1v2Point := tri.v1.lerp tri.v2 v1v2PointT
    let v2v0Point := tri.v2.lerp tri.v0 v2v0PointT
    let v1v2PointUV := tri.uv1.lerp tri.uv2 v1v2PointT
    let v2v0PointUV := tri.uv2.lerp tri.uv0 v2v0PointT
    [⟨tri.v0, tri.v1, v1v2Point, tri.uv0, tri.uv1, v1v2PointUV⟩,
     ⟨v1v2Point, v2v0Point, tri.v0, v1v2PointUV, v2v0PointUV, tri.uv0⟩]
  | 2 =>
    -- Inside: V0, V2; outside: V1. Becomes quad.
    let v0v1PointT := d0 / (d0 - d1)
    let v1v2PointT := d1 / (d1 - d2)
    let v0v1Point := tri.v0.lerp tri.v1 v0v1PointT
    let v1v2Point := tri.v1.lerp tri.v2 v1v2PointT
    let v0v1PointUV := tri.uv0.lerp tri.uv1 v0v1PointT
    let v1v2PointUV := tri.uv1.lerp tri.uv2 v1v2PointT
    [⟨tri.v0, v0v1Point, v1v2Point, tri.uv0, v0v1PointUV, v1v2PointUV⟩,
     ⟨v1v2Point, tri.v2, tri.v0, v1v2PointUV, tri.uv2, tri.uv0⟩]
  | 3 =>
    -- Inside: V0; outside: V1, V2. Becomes smaller triangle.
    let v0v1PointT := d0 / (d0 - d1)
    let v2v0PointT := d2 / (d2 - d0)
    let v0v1Point := tri.v0.lerp tri.v1 v0v1PointT
    let v2v0Point := tri.v2.lerp tri.v0 v2v0PointT
    let v0v1PointUV := tri.uv0.lerp tri.uv1 v0v1PointT
    let v2v0PointUV := tri.uv2.lerp tri.uv0 v2v0PointT
    [⟨tri.v0, v0v1Point, v2v0Point, tri.uv0, v0v1PointUV, v2v0PointUV⟩]
  | 4 =>
    -- Inside: V1, V2; outside: V0. Becomes quad.
    let v0v1PointT := d0 / (d0 - d1)
    let v2v0PointT := d2 / (d2 - d0)
    let v0v1Point := tri.v0.lerp tri.v1 v0v1PointT
    let v2v0Point := tri.v2.lerp tri.v0 v2v0PointT
    let v0v1PointUV := tri.uv0.lerp tri.uv1 v0v1PointT
    let v2v0PointUV := tri.uv2.lerp tri.uv0 v2v0PointT
    [⟨v0v1Point, tri.v1, tri.v2, v0v1PointUV, tri.uv1, tri.uv2⟩,
     ⟨tri.v2, v2v0Point, v0v1Point, tri.uv2, v2v0PointUV, v0v1PointUV⟩]
  | 5 =>
    -- Inside: V1; outside: V0, V2. Becomes smaller triangle.
    let v0v1PointT := d0 / (d0 - d1)
    let v1v2PointT := d1 / (d1 - d2)
    let v0v1Point := tri.v0.lerp tri.v1 v0v1PointT
    let v1v2Point := tri.v1.lerp tri.v2 v1v2PointT
    let v0v1PointUV := tri.uv0.lerp tri.uv1 v0v1PointT
    let v1v2PointUV := tri.uv1.lerp tri.uv2 v1v2PointT
    [⟨v0v1Point, tri.v1, v1v2Point, v0v1PointUV, tri.uv1, v1v2PointUV⟩]
  | 6 =>
    -- Inside: V2; outside: V0, V1. Becomes smaller triangle.
    let v1v2PointT := d1 / (d1 - d2)
    let v2v0PointT := d2 / (d2 - d0)
    let v1v2Point := tri.v1.lerp tri.v2 v1v2PointT
    let v2v0Point := tri.v2.lerp tri.v0 v2v0PointT
    let v1v2PointUV := tri.uv1.lerp tri.uv2 v1v2PointT
    let v2v0PointUV := tri.uv2.lerp tri.uv0 v2v0PointT
    [⟨v1v2Point, tri.v2, v2v0Point, v1v2PointUV, tri.uv2, v2v0PointUV⟩]
  | _ => []

/-- The clip list state: the append-only array `clipSpaceTriangleV0s..` as a
list whose length is `clipListSize`, plus `clipListFrontIndex`. -/
structure ClipState where
  clipList : List ClipTriangle
  frontIndex : ℕ
deriving Repr

/-- One pass of the plane loop (part_006 lines 1285–1508): the inner loop
consumes the `clipListSize - clipListFrontIndex` pending triangles from the
front, appending each one's clip results at `clipListSize`; afterwards the
front index has advanced past everything that was pending, i.e. to the old
list length. Appends never affect the pending range being consumed, so the
per-triangle loop is exactly this batch operation. -/
def clipPlanePass (i : ℕ) (st : ClipState) : ClipState :=
  { clipList := st.clipList ++ (st.clipList.drop st.frontIndex).flatMap (clipTrianglePlane i)
    frontIndex := st.clipList.length }

/-- Run the 6-plane clipping loop on one vertex-shaded triangle, returning
the final clip list state (part_006 lines 1281–1508). -/
def processClippingState (tri : ClipTriangle) : ClipState :=
  (List.range 6).foldl (fun st i => clipPlanePass i st) ⟨[tri], 0⟩

/-- The triangles appended to the clip-space mesh for one input triangle:
the entries from `clipListFrontIndex` to `clipListSize`
(part_006 lines 1510–1524). -/
def processClipping (tri : ClipTriangle) : List ClipTriangle :=
  let st := processClippingState tri
  st.clipList.drop st.frontIndex

/-- A triangle is entirely inside the frustum when all three clip-space
vertices satisfy `-w ≤ x,y,z ≤ w`. -/
def insideFrustum (tri : ClipTriangle) : Prop :=
  (-tri.v0.w ≤ tri.v0.x ∧ tri.v0.x ≤ tri.v0.w) ∧
  (-tri.v0.w ≤ tri.v0.y ∧ tri.v0.y ≤ tri.v0.w) ∧
  (-tri.v0.w ≤ tri.v0.z ∧ tri.v0.z ≤ tri.v0.w) ∧
  (-tri.v1.w ≤ tri.v1.x ∧ tri.v1.x ≤ tri.v1.w) ∧
  (-tri.v1.w ≤ tri.v1.y ∧ tri.v1.y ≤ tri.v1.w) ∧
  (-tri.v1.w ≤ tri.v1.z ∧ tri.v1.z ≤ tri.v1.w) ∧
  (-tri.v2.w ≤ tri.v2.x ∧ tri.v2.x ≤ tri.v2.w) ∧
  (-tri.v2.w ≤ tri.v2.y ∧ tri.v2.y ≤ tri.v2.w) ∧
  (-tri.v2.w ≤ tri.v2.z ∧ tri.v2.z ≤ tri.v2.w)

lemma isVertexInside_of_insideFrustum (tri : ClipTriangle) (h : insideFrustum tri)
    (i : ℕ) (hi : i < 6) :
    isVertexInside i tri.v0 ∧ isVertexInside i tri.v1 ∧ isVertexInside i tri.v2 := by
  obtain ⟨⟨h0xl, h0xr⟩, ⟨h0yl, h0yr⟩, ⟨h0zl, h0zr⟩, ⟨h1xl, h1xr⟩, ⟨h1yl, h1yr⟩,
    ⟨h1zl, h1zr⟩, ⟨h2xl, h2xr⟩, ⟨h2yl, h2yr⟩, ⟨h2zl, h2zr⟩⟩ := h
  unfold isVertexInside vertexDiff planeComponent signedW comparisonSign
  interval_cases i <;> norm_num <;> constructor <;> try constructor
  all_goals linarith

lemma clipTrianglePlane_inside (tri : ClipTriangle) (i : ℕ) (hi : i < 6)
    (h : insideFrustum tri) : clipTrianglePlane i tri = [tri] := by
  obtain ⟨h0, h1, h2⟩ := isVertexInside_of_insideFrustum tri h i hi
  unfold clipTrianglePlane
  simp [h0, h1, h2]

/-- C1. Clipping conservation: a triangle whose three clip-space vertices all
satisfy `-w ≤ x,y,z ≤ w` passes through all 6 planes of `ProcessClipping`
unchanged — exactly one output triangle with the same 3 vertices in the same
order and the same per-vertex UVs. -/
theorem clipping_conservation (tri : ClipTriangle) (h : insideFrustum tri) :
    processClipping tri = [tri] := by
  have hc0 := clipTrianglePlane_inside tri 0 (by norm_num) h
  have hc1 := clipTrianglePlane_inside tri 1 (by norm_num) h
  have hc2 := clipTrianglePlane_inside tri 2 (by norm_num) h
  have hc3 := clipTrianglePlane_inside tri 3 (by norm_num) h
  have hc4 := clipTrianglePlane_inside tri 4 (by norm_num) h
  have hc5 := clipTrianglePlane_inside tri 5 (by norm_num) h
  unfold processClipping processClippingState
  simp [List.range_succ, clipPlanePass, hc0, hc1, hc2, hc3, hc4, hc5]

/-- Witness for C1 at a concrete inside triangle. -/
theorem clipping_conservation_witness :
    insideFrustum ⟨⟨0, 0, 0, 1⟩, ⟨1/2, 0, 0, 1⟩, ⟨0, 1/2, 0, 1⟩,
        ⟨0, 0⟩, ⟨1, 0⟩, ⟨0, 1⟩⟩ ∧
      processClipping ⟨⟨0, 0, 0, 1⟩, ⟨1/2, 0, 0, 1⟩, ⟨0, 1/2, 0, 1⟩,
        ⟨0, 0⟩, ⟨1, 0⟩, ⟨0, 1⟩⟩ =
        [⟨⟨0, 0, 0, 1⟩, ⟨1/2, 0, 0, 1⟩, ⟨0, 1/2, 0, 1⟩, ⟨0, 0⟩, ⟨1, 0⟩, ⟨0, 1⟩⟩] :=
  ⟨by unfold insideFrustum; norm_num,
   clipping_conservation _ (by unfold insideFrustum; norm_num)⟩

/-- Number of vertices of `tri` classified outside plane `i`. -/
def outsideVertexCount (i : ℕ) (tri : ClipTriangle) : ℕ :=
  (if isVertexInside i tri.v0 then 0 else 1) +
  (if isVertexInside i tri.v1 then 0 else 1) +
  (if isVertexInside i tri.v2 then 0 else 1)

lemma Double4.lerp_flip_d4 (a b : Double4) (da db : ℚ) (h : da ≠ db) :
    a.lerp b (da / (da - db)) = b.lerp a (db / (db - da)) := by
  have hs : da - db ≠ 0 := sub_ne_zero.mpr h
  have hs' : db - da ≠ 0 := sub_ne_zero.mpr (Ne.symm h)
  simp only [Double4.lerp, Double4.mk.injEq]
  refine ⟨?_, ?_, ?_, ?_⟩ <;> (field_simp; ring)

lemma Double2.lerp_flip_d2 (a b : Double2) (da db : ℚ) (h : da ≠ db) :
    a.lerp b (da / (da - db)) = b.lerp a (db / (db - da)) := by
  have hs : da - db ≠ 0 := sub_ne_zero.mpr h
  have hs' : db - da ≠ 0 := sub_ne_zero.mpr (Ne.symm h)
  simp only [Double2.lerp, Double2.mk.injEq]
  refine ⟨?_, ?_⟩ <;> (field_simp; ring)

/-- The per-plane clipping step as worded by the spec: classify the 3
vertices against the half-space; 0 outside keeps the triangle, 1 outside
yields a quad (2 triangles), 2 outside a smaller triangle, 3 outside
nothing; every newly generated vertex lies on a crossing edge at parameter
`t = insideDist / (insideDist - outsideDist)` measured from the inside
endpoint, with UV and all 4 position components interpolated by that same
`t`. Triangle orders match the source's case table. -/
def clipTrianglePlaneSpec (i : ℕ) (tri : ClipTriangle) : List ClipTriangle :=
  let d0 := vertexDiff i tri.v0
  let d1 := vertexDiff i tri.v1
  let d2 := vertexDiff i tri.v2
  let insideMaskIndex : ℕ :=
    (if isVertexInside i tri.v2 then 0 else 1) +
    (if isVertexInside i tri.v1 then 0 else 2) +
    (if isVertexInside i tri.v0 then 0 else 4)
  match insideMaskIndex with
  | 0 => [tri]
  | 1 =>
    -- Inside: V0, V1; outside: V2. Crossing edges V1V2 and V0V2.
    let p12 := tri.v1.lerp tri.v2 (d1 / (d1 - d2))
    let p02 := tri.v0.lerp tri.v2 (d0 / (d0 - d2))
    let uv12 := tri.uv1.lerp tri.uv2 (d1 / (d1 - d2))
    let uv02 := tri.uv0.lerp tri.uv2 (d0 / (d0 - d2))
    [⟨tri.v0, tri.v1, p12, tri.uv0, tri.uv1, uv12⟩,
     ⟨p12, p02, tri.v0, uv12, uv02, tri.uv0⟩]
  | 2 =>
    -- Inside: V0, V2; outside: V1. Crossing edges V0V1 and V2V1.
    let p01 := tri.v0.lerp tri.v1 (d0 / (d0 - d1))
    let p21 := tri.v2.lerp tri.v1 (d2 / (d2 - d1))
    let uv01 := tri.uv0.lerp tri.uv1 (d0 / (d0 - d1))
    let uv21 := tri.uv2.lerp tri.uv1 (d2 / (d2 - d1))
    [⟨tri.v0, p01, p21, tri.uv0, uv01, uv21⟩,
     ⟨p21, tri.v2, tri.v0, uv21, tri.uv2, tri.uv0⟩]
  | 3 =>
    -- Inside: V0; outside: V1, V2. Crossing edges V0V1 and V0V2.
    let p01 := tri.v0.lerp tri.v1 (d0 / (d0 - d1))
    let p02 := tri.v0.lerp tri.v2 (d0 / (d0 - d2))
    let uv01 := tri.uv0.lerp tri.uv1 (d0 / (d0 - d1))
    let uv02 := tri.uv0.lerp tri.uv2 (d0 / (d0 - d2))
    [⟨tri.v0, p01, p02, tri.uv0, uv01, uv02⟩]
  | 4 =>
    -- Inside: V1, V2; outside: V0. Crossing edges V1V0 and V2V0.
    let p10 := tri.v1.lerp tri.v0 (d1 / (d1 - d0))
    let p20 := tri.v2.lerp tri.v0 (d2 / (d2 - d0))
    let uv10 := tri.uv1.lerp tri.uv0 (d1 / (d1 - d0))
    let uv20 := tri.uv2.lerp tri.uv0 (d2 / (d2 - d0))
    [⟨p10, tri.v1, tri.v2, uv10, tri.uv1, tri.uv2⟩,
     ⟨tri.v2, p20, p10, tri.uv2, uv20, uv10⟩]
  | 5 =>
    -- Inside: V1; outside: V0, V2. Crossing edges V1V0 and V1V2.
    let p10 := tri.v1.lerp tri.v0 (d1 / (d1 - d0))
    let p12 := tri.v1.lerp tri.v2 (d1 / (d1 - d2))
    let uv10 := tri.uv1.lerp tri.uv0 (d1 / (d1 - d0))
    let uv12 := tri.uv1.lerp tri.uv2 (d1 / (d1 - d2))
    [⟨p10, tri.v1, p12, uv10, tri.uv1, uv12⟩]
  | 6 =>
    -- Inside: V2; outside: V0, V1. Crossing edges V2V1 and V2V0.
    let p21 := tri.v2.lerp tri.v1 (d2 / (d2 - d1))
    let p20 := tri.v2.lerp tri.v0 (d2 / (d2 - d0))
    let uv21 := tri.uv2.lerp tri.uv1 (d2 / (d2 - d1))
    let uv20 := tri.uv2.lerp tri.uv0 (d2 / (d2 - d0))
    [⟨p21, tri.v2, p20, uv21, tri.uv2, uv20⟩]
  | _ => []

lemma vertexDiff_ne_of_classes {i : ℕ} {vi vo : Double4}
    (hin : isVertexInside i vi) (hout : ¬isVertexInside i vo) :
    vertexDiff i vi ≠ vertexDiff i vo := by
  intro he
  apply hout
  unfold isVertexInside at hin ⊢
  rw [← he]
  exact hin

/-- C2. Clipping completeness per plane: clipping one triangle against one
homogeneous half-space produces 1 unchanged triangle when 0 vertices are
outside, 2 triangles when exactly 1 is outside, 1 smaller triangle when
exactly 2 are outside, 0 triangles when all 3 are outside, and every newly
generated vertex lies on a crossing edge at linear parameter
`t = insideDist / (insideDist - outsideDist)` with UV and all 4 position
components interpolated by that same `t` (the refinement
`clipTrianglePlane = clipTrianglePlaneSpec`). -/
theorem clipping_completeness (i : ℕ) (tri : ClipTriangle) :
    clipTrianglePlane i tri = clipTrianglePlaneSpec i tri ∧
      (outsideVertexCount i tri = 0 → clipTrianglePlane i tri = [tri]) ∧
      (outsideVertexCount i tri = 1 → (clipTrianglePlane i tri).length = 2) ∧
      (outsideVertexCount i tri = 2 → (clipTrianglePlane i tri).length = 1) ∧
      (outsideVertexCount i tri = 3 → (clipTrianglePlane i tri).length = 0) := by
  have main : clipTrianglePlane i tri = clipTrianglePlaneSpec i tri := by
    by_cases h0 : isVertexInside i tri.v0 <;>
      by_cases h1 : isVertexInside i tri.v1 <;>
        by_cases h2 : isVertexInside i tri.v2
    · simp [clipTrianglePlane, clipTrianglePlaneSpec, h0, h1, h2]
    · -- only V2 outside: flip the V2V0 intersection
      have hne := @vertexDiff_ne_of_classes i tri.v0 tri.v2 h0 h2
      simp [clipTrianglePlane, clipTrianglePlaneSpec, h0, h1, h2,
        Double4.lerp_flip_d4 _ _ _ _ (Ne.symm hne), Double2.lerp_flip_d2 _ _ _ _ (Ne.symm hne)]
    · -- only V1 outside: flip the V1V2 intersection
      have hne := @vertexDiff_ne_of_classes i tri.v2 tri.v1 h2 h1
      simp [clipTrianglePlane, clipTrianglePlaneSpec, h0, h1, h2,
        Double4.lerp_flip_d4 _ _ _ _ (Ne.symm hne), Double2.lerp_flip_d2 _ _ _ _ (Ne.symm hne)]
    · -- V1, V2 outside: flip the V2V0 intersection
      have hne := @vertexDiff_ne_of_classes i tri.v0 tri.v2 h0 h2
      simp [clipTrianglePlane, clipTrianglePlaneSpec, h0, h1, h2,
        Double4.lerp_flip_d4 _ _ _ _ (Ne.symm hne), Double2.lerp_flip_d2 _ _ _ _ (Ne.symm hne)]
    · -- only V0 outside: flip the V0V1 intersection
      have hne := @vertexDiff_ne_of_classes i tri.v1 tri.v0 h1 h0
      simp [clipTrianglePlane, clipTrianglePlaneSpec, h0, h1, h2,
        Double4.lerp_flip_d4 _ _ _ _ (Ne.symm hne), Double2.lerp_flip_d2 _ _ _ _ (Ne.symm hne)]
    · -- V0, V2 outside: flip the V0V1 intersection
      have hne := @vertexDiff_ne_of_classes i tri.v1 tri.v0 h1 h0
      simp [clipTrianglePlane, clipTrianglePlaneSpec, h0, h1, h2,
        Double4.lerp_flip_d4 _ _ _ _ (Ne.symm hne), Double2.lerp_flip_d2 _ _ _ _ (Ne.symm hne)]
    · -- V0, V1 outside: flip the V1V2 intersection
      have hne := @vertexDiff_ne_of_classes i tri.v2 tri.v1 h2 h1
      simp [clipTrianglePlane, clipTrianglePlaneSpec, h0, h1, h2,
        Double4.lerp_flip_d4 _ _ _ _ (Ne.symm hne), Double2.lerp_flip_d2 _ _ _ _ (Ne.symm hne)]
    · simp [clipTrianglePlane, clipTrianglePlaneSpec, h0, h1, h2]
  refine ⟨main, ?_, ?_, ?_, ?_⟩ <;>
    · clear main
      intro hcount
      by_cases h0 : isVertexInside i tri.v0 <;>
        by_cases h1 : isVertexInside i tri.v1 <;>
          by_cases h2 : isVertexInside i tri.v2 <;>
        simp_all [outsideVertexCount, clipTrianglePlane]

/-- Witness for C2 at plane 0 with a triangle having exactly one vertex
(V2, at x = -3 < -w) outside. -/
theorem clipping_completeness_witness :
    outsideVertexCount 0 ⟨⟨0, 0, 0, 1⟩, ⟨1, 1, 0, 1⟩, ⟨-3, 0, 0, 1⟩,
        ⟨0, 0⟩, ⟨1, 0⟩, ⟨0, 1⟩⟩ = 1 ∧
      (clipTrianglePlane 0 ⟨⟨0, 0, 0, 1⟩, ⟨1, 1, 0, 1⟩, ⟨-3, 0, 0, 1⟩,
        ⟨0, 0⟩, ⟨1, 0⟩, ⟨0, 1⟩⟩).length = 2 :=
  ⟨by decide,
   (clipping_completeness 0 _).2.2.1 (by decide)⟩

/-- `MAX_CLIPPED_TRIANGLE_TRIANGLES` (part_006 line 285): capacity of the
per-triangle clip list arrays. -/
def MAX_CLIPPED_TRIANGLE_TRIANGLES : ℕ := 64

/-- A concrete world triangle (w = 1 on all vertices) that overflows the
clip list: its cumulative `clipListSize` grows 1→3→6→12→23→41→70 across the
6 planes. -/
def c8Triangle : ClipTriangle :=
  ⟨⟨2, 3, 17, 1⟩, ⟨-5, -3, -13, 1⟩, ⟨28, 12, 18, 1⟩, ⟨0, 0⟩, ⟨1, 0⟩, ⟨0, 1⟩⟩

/-- C8. Clip-list capacity violation: on `c8Triangle`, `clipListSize` (the
length of the append-only clip list, including entries the front index has
advanced past) reaches 70 > `MAX_CLIPPED_TRIANGLE_TRIANGLES` = 64, so the
writes at `resultWriteIndex0`/`resultWriteIndex1` for indices 64–69 fall
outside the 64-entry arrays. -/
theorem clip_list_capacity_exceeded :
    (processClippingState c8Triangle).clipList.length = 70 ∧
      MAX_CLIPPED_TRIANGLE_TRIANGLES < (processClippingState c8Triangle).clipList.length := by
  constructor <;> decide

/-! ## Screen-space projection and winding (RasterizeMesh, part_006 lines
1671–1692) -/

/-- 3-component vector of doubles (`Double3`). -/
structure Double3 where
  x : ℚ
  y : ℚ
  z : ℚ
deriving DecidableEq, Repr, Inhabited

/-- `RendererUtils::clipSpaceToNDC` (part_005 lines 172–176): the
perspective divide, clip → NDC, multiplying by `wRecip = 1 / point.w`. -/
def clipSpaceToNDC (v : Double4) : Double3 :=
  ⟨v.x / v.w, v.y / v.w, v.z / v.w⟩

/-- `NdcXToScreenSpace`/`NdcYToScreenSpace` (old `SoftwareRenderer.cpp`
lines 583–591): `(0.50 + ndcX*0.50)*frameWidth`,
`(0.50 - ndcY*0.50)*frameHeight`. -/
def ndcToScreenSpace (ndc : Double3) (frameWidth frameHeight : ℚ) : Double2 :=
  ⟨(1/2 + ndc.x * (1/2)) * frameWidth, (1/2 - ndc.y * (1/2)) * frameHeight⟩

/-- The rasterizer's signed-area measure of a projected triangle:
`screenSpace01Cross12 + screenSpace12Cross20 + screenSpace20Cross01`
(part_006 lines 1680–1688); back-face culling keeps triangles where this
sum is `> 0`. -/
def screenCrossSum (frameWidth frameHeight : ℚ) (tri : ClipTriangle) : ℚ :=
  let s0 := ndcToScreenSpace (clipSpaceToNDC tri.v0) frameWidth frameHeight
  let s1 := ndcToScreenSpace (clipSpaceToNDC tri.v1) frameWidth frameHeight
  let s2 := ndcToScreenSpace (clipSpaceToNDC tri.v2) frameWidth frameHeight
  let e01 := s1.sub s0
  let e12 := s2.sub s1
  let e20 := s0.sub s2
  e12.cross e01 + e20.cross e12 + e01.cross e20

/-- Determinant of the (x, y, w) components of three clip-space vertices;
the projected signed area equals `(3WH/4) · det3 / (w0·w1·w2)`. -/
def det3 (a b c : Double4) : ℚ :=
  a.x * (b.y * c.w - c.y * b.w) - a.y * (b.x * c.w - c.x * b.w) +
    a.w * (b.x * c.y - c.x * b.y)

lemma screenCrossSum_eq (W H : ℚ) (tri : ClipTriangle)
    (h0 : tri.v0.w ≠ 0) (h1 : tri.v1.w ≠ 0) (h2 : tri.v2.w ≠ 0) :
    screenCrossSum W H tri =
      (3 * W * H / 4) * det3 tri.v0 tri.v1 tri.v2 / (tri.v0.w * tri.v1.w * tri.v2.w) := by
  unfold screenCrossSum ndcToScreenSpace clipSpaceToNDC det3 Double2.sub Double2.cross
  field_simp
  ring

lemma ratio_bounds (A B : ℚ) (hA : 0 ≤ A) (hB : B < 0) :
    (0 ≤ A / (A - B) ∧ A / (A - B) ≤ 1) ∧ (0 ≤ B / (B - A) ∧ B / (B - A) ≤ 1) := by
  have hd : 0 < A - B := by linarith
  have hd2 : B - A < 0 := by linarith
  refine ⟨⟨div_nonneg hA hd.le, ?_⟩, ?_, ?_⟩
  · rw [div_le_one hd]; linarith
  · rw [div_nonneg_iff]; right; exact ⟨hB.le, hd2.le⟩
  · rw [div_le_one_iff]; right; right; exact ⟨hd2, by linarith⟩

lemma comparisonSign_cases (i : ℕ) : comparisonSign i = 1 ∨ comparisonSign i = -1 := by
  unfold comparisonSign
  by_cases h : i % 2 = 0 <;> simp [h]

/-- Both edge parameters generated for a crossing edge — `dIn/(dIn-dOut)`
from the inside endpoint and `dOut/(dOut-dIn)` from the outside endpoint —
lie in `[0, 1]`. -/
lemma vertexDiff_ratio_bounds {i : ℕ} {vi vo : Double4}
    (hin : isVertexInside i vi) (hout : ¬isVertexInside i vo) :
    (0 ≤ vertexDiff i vi / (vertexDiff i vi - vertexDiff i vo) ∧
      vertexDiff i vi / (vertexDiff i vi - vertexDiff i vo) ≤ 1) ∧
    (0 ≤ vertexDiff i vo / (vertexDiff i vo - vertexDiff i vi) ∧
      vertexDiff i vo / (vertexDiff i vo - vertexDiff i vi) ≤ 1) := by
  have hA : 0 ≤ vertexDiff i vi * comparisonSign i := hin
  have hB : vertexDiff i vo * comparisonSign i < 0 := not_le.mp hout
  have hsne : comparisonSign i ≠ 0 := by
    rcases comparisonSign_cases i with h | h <;> rw [h] <;> norm_num
  have key := ratio_bounds (vertexDiff i vi * comparisonSign i)
    (vertexDiff i vo * comparisonSign i) hA hB
  have e1 : vertexDiff i vi * comparisonSign i - vertexDiff i vo * comparisonSign i =
      (vertexDiff i vi - vertexDiff i vo) * comparisonSign i := by ring
  have e2 : vertexDiff i vo * comparisonSign i - vertexDiff i vi * comparisonSign i =
      (vertexDiff i vo - vertexDiff i vi) * comparisonSign i := by ring
  rw [e1, e2, mul_div_mul_right _ _ hsne, mul_div_mul_right _ _ hsne] at key
  exact key

lemma lerp_w_pos {a b : Double4} {t : ℚ} (ha : 0 < a.w) (hb : 0 < b.w)
    (ht0 : 0 ≤ t) (ht1 : t ≤ 1) : 0 < (a.lerp b t).w := by
  show 0 < a.w + (b.w - a.w) * t
  rcases lt_or_eq_of_le ht1 with h | h
  · nlinarith [mul_pos ha (sub_pos.mpr h), mul_nonneg ht0 hb.le]
  · rw [h]; nlinarith

lemma screenCrossSum_prod_nonneg (W H : ℚ) (p c : ClipTriangle) (coeff : ℚ)
    (hcoeff : 0 ≤ coeff)
    (hdet : det3 c.v0 c.v1 c.v2 = coeff * det3 p.v0 p.v1 p.v2)
    (hpw0 : 0 < p.v0.w) (hpw1 : 0 < p.v1.w) (hpw2 : 0 < p.v2.w)
    (hcw0 : 0 < c.v0.w) (hcw1 : 0 < c.v1.w) (hcw2 : 0 < c.v2.w) :
    0 ≤ screenCrossSum W H c * screenCrossSum W H p := by
  rw [screenCrossSum_eq W H c hcw0.ne' hcw1.ne' hcw2.ne',
    screenCrossSum_eq W H p hpw0.ne' hpw1.ne' hpw2.ne', hdet]
  have hcw : 0 < c.v0.w * c.v1.w * c.v2.w := by positivity
  have hpw : 0 < p.v0.w * p.v1.w * p.v2.w := by positivity
  have key : (3 * W * H / 4) * (coeff * det3 p.v0 p.v1 p.v2) / (c.v0.w * c.v1.w * c.v2.w) *
      ((3 * W * H / 4) * det3 p.v0 p.v1 p.v2 / (p.v0.w * p.v1.w * p.v2.w)) =
      (3 * W * H / 4) ^ 2 * coeff * det3 p.v0 p.v1 p.v2 ^ 2 /
        (c.v0.w * c.v1.w * c.v2.w * (p.v0.w * p.v1.w * p.v2.w)) := by
    field_simp
    ring
  rw [key]
  apply div_nonneg _ (mul_pos hcw hpw).le
  exact mul_nonneg (mul_nonneg (sq_nonneg _) hcoeff) (sq_nonneg _)

/-- C7 (amended). Winding is preserved up to degeneracy: for a parent
triangle whose vertices all have positive `w`, every triangle generated by
one plane-clipping step has a screen-space signed area (the rasterizer's
cross-product sum) of the same sign as the parent's **or zero**; it is never
of strictly opposite sign. -/
theorem winding_invariance_amended (i : ℕ) (tri : ClipTriangle) (W H : ℚ)
    (hw0 : 0 < tri.v0.w) (hw1 : 0 < tri.v1.w) (hw2 : 0 < tri.v2.w) :
    ∀ t' ∈ clipTrianglePlane i tri,
      0 ≤ screenCrossSum W H t' * screenCrossSum W H tri := by
  intro t' ht'
  by_cases h0 : isVertexInside i tri.v0 <;>
    by_cases h1 : isVertexInside i tri.v1 <;>
      by_cases h2 : isVertexInside i tri.v2
  · -- mask 0: all inside, unchanged triangle
    simp [clipTrianglePlane, h0, h1, h2] at ht'
    rw [ht']
    exact screenCrossSum_prod_nonneg W H tri tri 1 zero_le_one (by ring)
      hw0 hw1 hw2 hw0 hw1 hw2
  · -- mask 1: V2 outside
    obtain ⟨⟨ha0, ha1⟩, -⟩ := vertexDiff_ratio_bounds h1 h2
    obtain ⟨-, hb0, hb1⟩ := vertexDiff_ratio_bounds h0 h2
    simp [clipTrianglePlane, h0, h1, h2] at ht'
    rcases ht' with h | h <;> subst h
    · refine screenCrossSum_prod_nonneg W H tri _
        (vertexDiff i tri.v1 / (vertexDiff i tri.v1 - vertexDiff i tri.v2)) ha0 ?_
        hw0 hw1 hw2 hw0 hw1 (lerp_w_pos hw1 hw2 ha0 ha1)
      simp only [det3, Double4.lerp]; ring
    · refine screenCrossSum_prod_nonneg W H tri _
        ((1 - vertexDiff i tri.v1 / (vertexDiff i tri.v1 - vertexDiff i tri.v2)) *
          (1 - vertexDiff i tri.v2 / (vertexDiff i tri.v2 - vertexDiff i tri.v0)))
        (mul_nonneg (by linarith) (by linarith)) ?_
        hw0 hw1 hw2 (lerp_w_pos hw1 hw2 ha0 ha1) (lerp_w_pos hw2 hw0 hb0 hb1) hw0
      simp only [det3, Double4.lerp]; ring
  · -- mask 2: V1 outside
    obtain ⟨⟨ha0, ha1⟩, -⟩ := vertexDiff_ratio_bounds h0 h1
    obtain ⟨-, hb0, hb1⟩ := vertexDiff_ratio_bounds h2 h1
    simp [clipTrianglePlane, h0, h1, h2] at ht'
    rcases ht' with h | h <;> subst h
    · refine screenCrossSum_prod_nonneg W H tri _
        (vertexDiff i tri.v0 / (vertexDiff i tri.v0 - vertexDiff i tri.v1) *
          (vertexDiff i tri.v1 / (vertexDiff i tri.v1 - vertexDiff i tri.v2)))
        (mul_nonneg ha0 hb0) ?_
        hw0 hw1 hw2 hw0 (lerp_w_pos hw0 hw1 ha0 ha1) (lerp_w_pos hw1 hw2 hb0 hb1)
      simp only [det3, Double4.lerp]; ring
    · refine screenCrossSum_prod_nonneg W H tri _
        (1 - vertexDiff i tri.v1 / (vertexDiff i tri.v1 - vertexDiff i tri.v2))
        (by linarith) ?_
        hw0 hw1 hw2 (lerp_w_pos hw1 hw2 hb0 hb1) hw2 hw0
      simp only [det3, Double4.lerp]; ring
  · -- mask 3: V1, V2 outside
    obtain ⟨⟨ha0, ha1⟩, -⟩ := vertexDiff_ratio_bounds h0 h1
    obtain ⟨-, hb0, hb1⟩ := vertexDiff_ratio_bounds h0 h2
    simp [clipTrianglePlane, h0, h1, h2] at ht'
    subst ht'
    refine screenCrossSum_prod_nonneg W H tri _
      (vertexDiff i tri.v0 / (vertexDiff i tri.v0 - vertexDiff i tri.v1) *
        (1 - vertexDiff i tri.v2 / (vertexDiff i tri.v2 - vertexDiff i tri.v0)))
      (mul_nonneg ha0 (by linarith)) ?_
      hw0 hw1 hw2 hw0 (lerp_w_pos hw0 hw1 ha0 ha1) (lerp_w_pos hw2 hw0 hb0 hb1)
    simp only [det3, Double4.lerp]; ring
  · -- mask 4: V0 outside
    obtain ⟨-, ha0, ha1⟩ := vertexDiff_ratio_bounds h1 h0
    obtain ⟨⟨hb0, hb1⟩, -⟩ := vertexDiff_ratio_bounds h2 h0
    simp [clipTrianglePlane, h0, h1, h2] at ht'
    rcases ht' with h | h <;> subst h
    · refine screenCrossSum_prod_nonneg W H tri _
        (1 - vertexDiff i tri.v0 / (vertexDiff i tri.v0 - vertexDiff i tri.v1))
        (by linarith) ?_
        hw0 hw1 hw2 (lerp_w_pos hw0 hw1 ha0 ha1) hw1 hw2
      simp only [det3, Double4.lerp]; ring
    · refine screenCrossSum_prod_nonneg W H tri _
        (vertexDiff i tri.v2 / (vertexDiff i tri.v2 - vertexDiff i tri.v0) *
          (vertexDiff i tri.v0 / (vertexDiff i tri.v0 - vertexDiff i tri.v1)))
        (mul_nonneg hb0 ha0) ?_
        hw0 hw1 hw2 hw2 (lerp_w_pos hw2 hw0 hb0 hb1) (lerp_w_pos hw0 hw1 ha0 ha1)
      simp only [det3, Double4.lerp]; ring
  · -- mask 5: V0, V2 outside
    obtain ⟨-, ha0, ha1⟩ := vertexDiff_ratio_bounds h1 h0
    obtain ⟨⟨hb0, hb1⟩, -⟩ := vertexDiff_ratio_bounds h1 h2
    simp [clipTrianglePlane, h0, h1, h2] at ht'
    subst ht'
    refine screenCrossSum_prod_nonneg W H tri _
      ((1 - vertexDiff i tri.v0 / (vertexDiff i tri.v0 - vertexDiff i tri.v1)) *
        (vertexDiff i tri.v1 / (vertexDiff i tri.v1 - vertexDiff i tri.v2)))
      (mul_nonneg (by linarith) hb0) ?_
      hw0 hw1 hw2 (lerp_w_pos hw0 hw1 ha0 ha1) hw1 (lerp_w_pos hw1 hw2 hb0 hb1)
    simp only [det3, Double4.lerp]; ring
  · -- mask 6: V0, V1 outside
    obtain ⟨-, ha0, ha1⟩ := vertexDiff_ratio_bounds h2 h1
    obtain ⟨⟨hb0, hb1⟩, -⟩ := vertexDiff_ratio_bounds h2 h0
    simp [clipTrianglePlane, h0, h1, h2] at ht'
    subst ht'
    refine screenCrossSum_prod_nonneg W H tri _
      ((1 - vertexDiff i tri.v1 / (vertexDiff i tri.v1 - vertexDiff i tri.v2)) *
        (vertexDiff i tri.v2 / (vertexDiff i tri.v2 - vertexDiff i tri.v0)))
      (mul_nonneg (by linarith) hb0) ?_
      hw0 hw1 hw2 (lerp_w_pos hw1 hw2 ha0 ha1) hw2 (lerp_w_pos hw2 hw0 hb0 hb1)
    simp only [det3, Double4.lerp]; ring
  · -- mask 7: everything outside, no outputs
    simp [clipTrianglePlane, h0, h1, h2] at ht'

/-- Witness for C7's amended theorem: the clip of `c8Triangle` against
plane 0 produces a first output triangle, and the sign product is
nonnegative. -/
theorem winding_invariance_amended_witness :
    (0:ℚ) < (⟨⟨2, 3, 17, 1⟩, ⟨-5, -3, -13, 1⟩, ⟨28, 12, 18, 1⟩,
        ⟨0, 0⟩, ⟨1, 0⟩, ⟨0, 1⟩⟩ : ClipTriangle).v0.w ∧
    ∀ t' ∈ clipTrianglePlane 0 (⟨⟨2, 3, 17, 1⟩, ⟨-5, -3, -13, 1⟩, ⟨28, 12, 18, 1⟩,
        ⟨0, 0⟩, ⟨1, 0⟩, ⟨0, 1⟩⟩ : ClipTriangle),
      0 ≤ screenCrossSum 4 3 t' * screenCrossSum 4 3
        (⟨⟨2, 3, 17, 1⟩, ⟨-5, -3, -13, 1⟩, ⟨28, 12, 18, 1⟩, ⟨0, 0⟩, ⟨1, 0⟩, ⟨0, 1⟩⟩ : ClipTriangle) :=
  ⟨by norm_num,
   winding_invariance_amended 0 _ 4 3 (by norm_num) (by norm_num) (by norm_num)⟩

/-- The degenerate configuration refuting C7 as stated: V1 lies exactly on
plane 0 (x = -w) and V2 is outside it, so the first generated triangle is
degenerate (zero area) while the parent has strictly positive area — the
generated area does not have "the same sign" as its parent's. -/
def c7Triangle : ClipTriangle :=
  ⟨⟨0, 0, 0, 1⟩, ⟨-1, 1, 0, 1⟩, ⟨-3, 0, 0, 1⟩, ⟨0, 0⟩, ⟨1, 0⟩, ⟨0, 1⟩⟩

/-- C7 counterexample: clipping `c7Triangle` against plane 0 generates a
triangle of zero screen-space signed area from a parent of positive area,
refuting "each generated triangle's signed area has the same sign as its
parent's". -/
theorem winding_invariance_counterexample :
    0 < screenCrossSum 2 2 c7Triangle ∧
      (clipTrianglePlane 0 c7Triangle).headD default ∈ clipTrianglePlane 0 c7Triangle ∧
      screenCrossSum 2 2 ((clipTrianglePlane 0 c7Triangle).headD default) = 0 ∧
      ¬(∀ t' ∈ clipTrianglePlane 0 c7Triangle,
          (0 < screenCrossSum 2 2 t' ↔ 0 < screenCrossSum 2 2 c7Triangle)) := by
  refine ⟨by decide, by decide, by decide, ?_⟩
  intro hall
  have := hall ((clipTrianglePlane 0 c7Triangle).headD default) (by decide)
  exact absurd (this.mpr (by decide)) (by decide)

/-! ## Pixel shading stage (part_006 lines 411–470, 573–888, 1604–1941)

C++ buffers indexed by `int` are `List`s indexed through `Int.toNat`; all
indices produced by the shaders are clamped nonnegative in the source. -/

/-- Read `l[i]` (8/32-bit buffer read). -/
def listGet (l : List ℕ) (i : ℤ) : ℕ := l.getD i.toNat 0

/-- Read `l[i]` (double buffer read). -/
def listGetQ (l : List ℚ) (i : ℤ) : ℚ := l.getD i.toNat 0

/-- Write `l[i] = v`. -/
def listSet {α : Type} (l : List α) (i : ℤ) (v : α) : List α := l.set i.toNat v

/-- Modelled from the spec: `ArenaRenderUtils::PALETTE_INDEX_TRANSPARENT`
(header not in the source snapshot) — the designated transparent palette
index; only its identity matters to the claims. -/
def PALETTE_INDEX_TRANSPARENT : ℕ := 0

/-- Modelled from the spec: `ArenaRenderUtils::PALETTE_INDEX_LIGHT_LEVEL_LOWEST`. -/
def PALETTE_INDEX_LIGHT_LEVEL_LOWEST : ℕ := 1

/-- Modelled from the spec: `ArenaRenderUtils::PALETTE_INDEX_LIGHT_LEVEL_HIGHEST`. -/
def PALETTE_INDEX_LIGHT_LEVEL_HIGHEST : ℕ := 13

/-- Modelled from the spec: `ArenaRenderUtils::isLightLevelTexel`. -/
def isLightLevelTexel (texel : ℕ) : Bool :=
  PALETTE_INDEX_LIGHT_LEVEL_LOWEST ≤ texel ∧ texel ≤ PALETTE_INDEX_LIGHT_LEVEL_HIGHEST

/-- Modelled from the spec: `ArenaRenderUtils::PALETTE_INDEX_LIGHT_LEVEL_SRC1`. -/
def PALETTE_INDEX_LIGHT_LEVEL_SRC1 : ℕ := 158

/-- Modelled from the spec: `ArenaRenderUtils::PALETTE_INDEX_LIGHT_LEVEL_SRC2`. -/
def PALETTE_INDEX_LIGHT_LEVEL_SRC2 : ℕ := 159

/-- Modelled from the spec: `ArenaRenderUtils::PALETTE_INDEX_LIGHT_LEVEL_DST1`. -/
def PALETTE_INDEX_LIGHT_LEVEL_DST1 : ℕ := 158

/-- Modelled from the spec: `ArenaRenderUtils::PALETTE_INDEX_LIGHT_LEVEL_DST2`. -/
def PALETTE_INDEX_LIGHT_LEVEL_DST2 : ℕ := 159

/-- Modelled from the spec: `ArenaRenderUtils::PALETTE_INDEX_PUDDLE_EVEN_ROW`. -/
def PALETTE_INDEX_PUDDLE_EVEN_ROW : ℕ := 30

/-- `TextureSamplingType`. -/
inductive TextureSamplingType where
  | Default
  | ScreenSpaceRepeatY
deriving DecidableEq, Repr

/-- `PixelShaderPerspectiveCorrection` (part_006 lines 411–415). -/
structure PixelShaderPerspectiveCorrection where
  ndcZDepth : ℚ
  texelPercentX : ℚ
  texelPercentY : ℚ
deriving Repr

/-- `PixelShaderTexture` (part_006 lines 417–436). -/
structure PixelShaderTexture where
  texels : List ℕ
  width : ℤ
  height : ℤ
  widthMinusOne : ℤ
  heightMinusOne : ℤ
  widthReal : ℚ
  heightReal : ℚ
  samplingType : TextureSamplingType
deriving Repr

/-- `PixelShaderTexture::init`. -/
def PixelShaderTexture.init (texels : List ℕ) (width height : ℤ)
    (samplingType : TextureSamplingType) : PixelShaderTexture :=
  ⟨texels, width, height, width - 1, height - 1, (width : ℚ), (height : ℚ), samplingType⟩

/-- `PixelShaderPalette` (part_006 lines 438–442); 32-bit colors as `ℕ`. -/
structure PixelShaderPalette where
  colors : List ℕ
  count : ℤ
deriving Repr

/-- `PixelShaderLighting` (part_006 lines 444–452). -/
structure PixelShaderLighting where
  lightTableTexels : List ℕ
  lightLevelCount : ℤ
  lightLevelCountReal : ℚ
  lastLightLevel : ℤ
  texelsPerLightLevel : ℤ
  lightLevel : ℤ
deriving Repr

/-- `PixelShaderHorizonMirror` (part_006 lines 454–460). -/
structure PixelShaderHorizonMirror where
  horizonScreenSpacePointX : ℚ
  horizonScreenSpacePointY : ℚ
  reflectedPixelIndex : ℤ
  isReflectedPixelInFrameBuffer : Bool
  fallbackSkyColor : ℕ
deriving Repr

/-- `PixelShaderFrameBuffer` (part_006 lines 462–470): `colors` is the 8-bit
palette-index buffer. -/
structure PixelShaderFrameBuffer where
  colors : List ℕ
  depth : List ℚ
  palette : PixelShaderPalette
  xPercent : ℚ
  yPercent : ℚ
  pixelIndex : ℤ
  enableDepthWrite : Bool
deriving Repr

/-- The shared tail of every writing shader: store the resolved palette
index at the pixel and, when depth writes are on, the NDC depth. -/
def writeShaderResult (shadedTexel : ℕ) (ndcZDepth : ℚ)
    (frameBuffer : PixelShaderFrameBuffer) : PixelShaderFrameBuffer :=
  let fb := { frameBuffer with
    colors := listSet frameBuffer.colors frameBuffer.pixelIndex shadedTexel }
  if fb.enableDepthWrite then
    { fb with depth := listSet fb.depth fb.pixelIndex ndcZDepth }
  else fb

/-- Texel sampling in `PixelShader_Opaque` (part_006 lines 576–594),
including the `ScreenSpaceRepeatY` path; `xPercent`/`yPercent` come from the
frame buffer. -/
def opaqueTexelIndex (perspective : PixelShaderPerspectiveCorrection)
    (texture : PixelShaderTexture) (xPercent yPercent : ℚ) : ℤ :=
  match texture.samplingType with
  | .Default =>
    let texelX := clampZ (cppToInt (perspective.texelPercentX * texture.widthReal)) 0 texture.widthMinusOne
    let texelY := clampZ (cppToInt (perspective.texelPercentY * texture.heightReal)) 0 texture.heightMinusOne
    texelX + texelY * texture.width
  | .ScreenSpaceRepeatY =>
    let texelX := clampZ (cppToInt (xPercent * texture.widthReal)) 0 texture.widthMinusOne
    let v := yPercent * 2
    let actualV := if 1 ≤ v then v - 1 else v
    let texelY := clampZ (cppToInt (actualV * texture.heightReal)) 0 texture.heightMinusOne
    texelX + texelY * texture.width

/-- The palette index `PixelShader_Opaque` computes and stores: the sampled
texel pushed through the light table row. -/
def opaqueShadedIndex (perspective : PixelShaderPerspectiveCorrection)
    (texture : PixelShaderTexture) (lighting : PixelShaderLighting)
    (xPercent yPercent : ℚ) : ℕ :=
  let texel := listGet texture.texels (opaqueTexelIndex perspective texture xPercent yPercent)
  listGet lighting.lightTableTexels
    ((texel : ℤ) + lighting.lightLevel * lighting.texelsPerLightLevel)

/-- `PixelShader_Opaque` (part_006 lines 573–604). -/
def PixelShader_Opaque (perspective : PixelShaderPerspectiveCorrection)
    (texture : PixelShaderTexture) (lighting : PixelShaderLighting)
    (frameBuffer : PixelShaderFrameBuffer) : PixelShaderFrameBuffer :=
  writeShaderResult
    (opaqueShadedIndex perspective texture lighting frameBuffer.xPercent frameBuffer.yPercent)
    perspective.ndcZDepth frameBuffer

/-- `PixelShader_OpaqueWithAlphaTestLayer` (part_006 lines 606–635). -/
def PixelShader_OpaqueWithAlphaTestLayer (perspective : PixelShaderPerspectiveCorrection)
    (opaqueTexture alphaTestTexture : PixelShaderTexture) (lighting : PixelShaderLighting)
    (frameBuffer : PixelShaderFrameBuffer) : PixelShaderFrameBuffer :=
  let layerTexelX := clampZ (cppToInt (perspective.texelPercentX * alphaTestTexture.widthReal)) 0 alphaTestTexture.widthMinusOne
  let layerTexelY := clampZ (cppToInt (perspective.texelPercentY * alphaTestTexture.heightReal)) 0 alphaTestTexture.heightMinusOne
  let layerTexel := listGet alphaTestTexture.texels (layerTexelX + layerTexelY * alphaTestTexture.width)
  let texel :=
    if layerTexel = PALETTE_INDEX_TRANSPARENT then
      let texelX := clampZ (cppToInt (frameBuffer.xPercent * opaqueTexture.widthReal)) 0 opaqueTexture.widthMinusOne
      let v := frameBuffer.yPercent * 2
      let actualV := if 1 ≤ v then v - 1 else v
      let texelY := clampZ (cppToInt (actualV * opaqueTexture.heightReal)) 0 opaqueTexture.heightMinusOne
      listGet opaqueTexture.texels (texelX + texelY * opaqueTexture.width)
    else layerTexel
  let shadedTexel := listGet lighting.lightTableTexels
    ((texel : ℤ) + lighting.lightLevel * lighting.texelsPerLightLevel)
  writeShaderResult shadedTexel perspective.ndcZDepth frameBuffer

/-- Default-clamp sampling shared by the `AlphaTested*` shaders. -/
def alphaTestedTexel (perspective : PixelShaderPerspectiveCorrection)
    (texture : PixelShaderTexture) : ℕ :=
  let texelX := clampZ (cppToInt (perspective.texelPercentX * texture.widthReal)) 0 texture.widthMinusOne
  let texelY := clampZ (cppToInt (perspective.texelPercentY * texture.heightReal)) 0 texture.heightMinusOne
  listGet texture.texels (texelX + texelY * texture.width)

/-- `PixelShader_AlphaTested` (part_006 lines 637–659). -/
def PixelShader_AlphaTested (perspective : PixelShaderPerspectiveCorrection)
    (texture : PixelShaderTexture) (lighting : PixelShaderLighting)
    (frameBuffer : PixelShaderFrameBuffer) : PixelShaderFrameBuffer :=
  let texel := alphaTestedTexel perspective texture
  if texel = PALETTE_INDEX_TRANSPARENT then frameBuffer
  else
    let shadedTexel := listGet lighting.lightTableTexels
      ((texel : ℤ) + lighting.lightLevel * lighting.texelsPerLightLevel)
    writeShaderResult shadedTexel perspective.ndcZDepth frameBuffer

/-- The texel sampled by `PixelShader_AlphaTestedWithVariableTexCoordUMin`
(part_006 lines 664–668). -/
def uMinTexel (perspective : PixelShaderPerspectiveCorrection)
    (texture : PixelShaderTexture) (uMin : ℚ) : ℕ :=
  let u := clampQ (uMin + (1 - uMin) * perspective.texelPercentX) uMin 1
  let texelX := clampZ (cppToInt (u * texture.widthReal)) 0 texture.widthMinusOne
  let texelY := clampZ (cppToInt (perspective.texelPercentY * (texture.height : ℚ))) 0 texture.heightMinusOne
  listGet texture.texels (texelX + texelY * texture.width)

/-- `PixelShader_AlphaTestedWithVariableTexCoordUMin` (part_006 lines 661–684). -/
def PixelShader_AlphaTestedWithVariableTexCoordUMin (perspective : PixelShaderPerspectiveCorrection)
    (texture : PixelShaderTexture) (uMin : ℚ) (lighting : PixelShaderLighting)
    (frameBuffer : PixelShaderFrameBuffer) : PixelShaderFrameBuffer :=
  let texel := uMinTexel perspective texture uMin
  if texel = PALETTE_INDEX_TRANSPARENT then frameBuffer
  else
    let shadedTexel := listGet lighting.lightTableTexels
      ((texel : ℤ) + lighting.lightLevel * lighting.texelsPerLightLevel)
    writeShaderResult shadedTexel perspective.ndcZDepth frameBuffer

/-- The texel sampled by `PixelShader_AlphaTestedWithVariableTexCoordVMin`
(part_006 lines 689–694). -/
def vMinTexel (perspective : PixelShaderPerspectiveCorrection)
    (texture : PixelShaderTexture) (vMin : ℚ) : ℕ :=
  let texelX := clampZ (cppToInt (perspective.texelPercentX * texture.widthReal)) 0 texture.widthMinusOne
  let v := clampQ (vMin + (1 - vMin) * perspective.texelPercentY) vMin 1
  let texelY := clampZ (cppToInt (v * texture.heightReal)) 0 texture.heightMinusOne
  listGet texture.texels (texelX + texelY * texture.width)

/-- `PixelShader_AlphaTestedWithVariableTexCoordVMin` (part_006 lines 686–710). -/
def PixelShader_AlphaTestedWithVariableTexCoordVMin (perspective : PixelShaderPerspectiveCorrection)
    (texture : PixelShaderTexture) (vMin : ℚ) (lighting : PixelShaderLighting)
    (frameBuffer : PixelShaderFrameBuffer) : PixelShaderFrameBuffer :=
  let texel := vMinTexel perspective texture vMin
  if texel = PALETTE_INDEX_TRANSPARENT then frameBuffer
  else
    let shadedTexel := listGet lighting.lightTableTexels
      ((texel : ℤ) + lighting.lightLevel * lighting.texelsPerLightLevel)
    writeShaderResult shadedTexel perspective.ndcZDepth frameBuffer

/-- `PixelShader_AlphaTestedWithPaletteIndexLookup` (part_006 lines 712–736). -/
def PixelShader_AlphaTestedWithPaletteIndexLookup (perspective : PixelShaderPerspectiveCorrection)
    (texture lookupTexture : PixelShaderTexture) (lighting : PixelShaderLighting)
    (frameBuffer : PixelShaderFrameBuffer) : PixelShaderFrameBuffer :=
  let texel := alphaTestedTexel perspective texture
  if texel = PALETTE_INDEX_TRANSPARENT then frameBuffer
  else
    let replacementTexel := listGet lookupTexture.texels (texel : ℤ)
    let shadedTexel := listGet lighting.lightTableTexels
      ((replacementTexel : ℤ) + lighting.lightLevel * lighting.texelsPerLightLevel)
    writeShaderResult shadedTexel perspective.ndcZDepth frameBuffer

/-- `PixelShader_AlphaTestedWithLightLevelColor` (part_006 lines 738–761). -/
def PixelShader_AlphaTestedWithLightLevelColor (perspective : PixelShaderPerspectiveCorrection)
    (texture : PixelShaderTexture) (lighting : PixelShaderLighting)
    (frameBuffer : PixelShaderFrameBuffer) : PixelShaderFrameBuffer :=
  let texel := alphaTestedTexel perspective texture
  if texel = PALETTE_INDEX_TRANSPARENT then frameBuffer
  else
    let resultTexel := listGet lighting.lightTableTexels
      ((texel : ℤ) + lighting.lightLevel * lighting.texelsPerLightLevel)
    writeShaderResult resultTexel perspective.ndcZDepth frameBuffer

/-- `PixelShader_AlphaTestedWithLightLevelOpacity` (part_006 lines 763–808). -/
def PixelShader_AlphaTestedWithLightLevelOpacity (perspective : PixelShaderPerspectiveCorrection)
    (texture : PixelShaderTexture) (lighting : PixelShaderLighting)
    (frameBuffer : PixelShaderFrameBuffer) : PixelShaderFrameBuffer :=
  let texel := alphaTestedTexel perspective texture
  if texel = PALETTE_INDEX_TRANSPARENT then frameBuffer
  else
    let lightTableTexelIndex : ℤ :=
      if isLightLevelTexel texel then
        let lightLevel := (texel : ℤ) - (PALETTE_INDEX_LIGHT_LEVEL_LOWEST : ℤ)
        let prevFrameBufferPixel := listGet frameBuffer.colors frameBuffer.pixelIndex
        (prevFrameBufferPixel : ℤ) + lightLevel * lighting.texelsPerLightLevel
      else
        let lightTableOffset := lighting.lightLevel * lighting.texelsPerLightLevel
        if texel = PALETTE_INDEX_LIGHT_LEVEL_SRC1 then
          lightTableOffset + (PALETTE_INDEX_LIGHT_LEVEL_DST1 : ℤ)
        else if texel = PALETTE_INDEX_LIGHT_LEVEL_SRC2 then
          lightTableOffset + (PALETTE_INDEX_LIGHT_LEVEL_DST2 : ℤ)
        else
          lightTableOffset + (texel : ℤ)
    let resultTexel := listGet lighting.lightTableTexels lightTableTexelIndex
    writeShaderResult resultTexel perspective.ndcZDepth frameBuffer

/-- `PixelShader_AlphaTestedWithPreviousBrightnessLimit` (part_006 lines
810–845). `brightnessMask = ~0x3F` on a byte is `0xC0`. -/
def PixelShader_AlphaTestedWithPreviousBrightnessLimit
    (perspective : PixelShaderPerspectiveCorrection) (texture : PixelShaderTexture)
    (frameBuffer : PixelShaderFrameBuffer) : PixelShaderFrameBuffer :=
  let brightnessMaskRGB : ℕ := (0xC0 <<< 16) ||| (0xC0 <<< 8) ||| 0xC0
  let prevFrameBufferPixel := listGet frameBuffer.colors frameBuffer.pixelIndex
  let prevFrameBufferColor := listGet frameBuffer.palette.colors (prevFrameBufferPixel : ℤ)
  let isDarkEnough := prevFrameBufferColor &&& brightnessMaskRGB = 0
  if ¬isDarkEnough then frameBuffer
  else
    let texel := alphaTestedTexel perspective texture
    if texel = PALETTE_INDEX_TRANSPARENT then frameBuffer
    else writeShaderResult texel perspective.ndcZDepth frameBuffer

/-- `PixelShader_AlphaTestedWithHorizonMirror` (part_006 lines 847–888). -/
def PixelShader_AlphaTestedWithHorizonMirror (perspective : PixelShaderPerspectiveCorrection)
    (texture : PixelShaderTexture) (horizon : PixelShaderHorizonMirror)
    (lighting : PixelShaderLighting) (frameBuffer : PixelShaderFrameBuffer) :
    PixelShaderFrameBuffer :=
  let texel := alphaTestedTexel perspective texture
  if texel = PALETTE_INDEX_TRANSPARENT then frameBuffer
  else
    let resultTexel :=
      if texel = PALETTE_INDEX_PUDDLE_EVEN_ROW then
        if horizon.isReflectedPixelInFrameBuffer then
          listGet frameBuffer.colors horizon.reflectedPixelIndex
        else horizon.fallbackSkyColor
      else
        listGet lighting.lightTableTexels
          ((texel : ℤ) + lighting.lightLevel * lighting.texelsPerLightLevel)
    writeShaderResult resultTexel perspective.ndcZDepth frameBuffer

/-- `PixelShaderType` (the dispatch enum). -/
inductive PixelShaderType where
  | Opaque
  | OpaqueWithAlphaTestLayer
  | AlphaTested
  | AlphaTestedWithVariableTexCoordUMin
  | AlphaTestedWithVariableTexCoordVMin
  | AlphaTestedWithPaletteIndexLookup
  | AlphaTestedWithLightLevelColor
  | AlphaTestedWithLightLevelOpacity
  | AlphaTestedWithPreviousBrightnessLimit
  | AlphaTestedWithHorizonMirror
deriving DecidableEq, Repr

/-- The `AlphaTested*` family of shader variants. -/
def PixelShaderType.isAlphaTestedVariant : PixelShaderType → Bool
  | .AlphaTested => true
  | .AlphaTestedWithVariableTexCoordUMin => true
  | .AlphaTestedWithVariableTexCoordVMin => true
  | .AlphaTestedWithPaletteIndexLookup => true
  | .AlphaTestedWithLightLevelColor => true
  | .AlphaTestedWithLightLevelOpacity => true
  | .AlphaTestedWithPreviousBrightnessLimit => true
  | .AlphaTestedWithHorizonMirror => true
  | _ => false

/-- The pixel-shader dispatch `switch` (part_006 lines 1895–1930). -/
def shadePixelDispatch (pixelShaderType : PixelShaderType)
    (perspective : PixelShaderPerspectiveCorrection)
    (shaderTexture0 shaderTexture1 : PixelShaderTexture) (pixelShaderParam0 : ℚ)
    (horizon : PixelShaderHorizonMirror) (lighting : PixelShaderLighting)
    (frameBuffer : PixelShaderFrameBuffer) : PixelShaderFrameBuffer :=
  match pixelShaderType with
  | .Opaque => PixelShader_Opaque perspective shaderTexture0 lighting frameBuffer
  | .OpaqueWithAlphaTestLayer =>
    PixelShader_OpaqueWithAlphaTestLayer perspective shaderTexture0 shaderTexture1 lighting frameBuffer
  | .AlphaTested => PixelShader_AlphaTested perspective shaderTexture0 lighting frameBuffer
  | .AlphaTestedWithVariableTexCoordUMin =>
    PixelShader_AlphaTestedWithVariableTexCoordUMin perspective shaderTexture0 pixelShaderParam0 lighting frameBuffer
  | .AlphaTestedWithVariableTexCoordVMin =>
    PixelShader_AlphaTestedWithVariableTexCoordVMin perspective shaderTexture0 pixelShaderParam0 lighting frameBuffer
  | .AlphaTestedWithPaletteIndexLookup =>
    PixelShader_AlphaTestedWithPaletteIndexLookup perspective shaderTexture0 shaderTexture1 lighting frameBuffer
  | .AlphaTestedWithLightLevelColor =>
    PixelShader_AlphaTestedWithLightLevelColor perspective shaderTexture0 lighting frameBuffer
  | .AlphaTestedWithLightLevelOpacity =>
    PixelShader_AlphaTestedWithLightLevelOpacity perspective shaderTexture0 lighting frameBuffer
  | .AlphaTestedWithPreviousBrightnessLimit =>
    PixelShader_AlphaTestedWithPreviousBrightnessLimit perspective shaderTexture0 frameBuffer
  | .AlphaTestedWithHorizonMirror =>
    PixelShader_AlphaTestedWithHorizonMirror perspective shaderTexture0 horizon lighting frameBuffer

/-- The three per-frame buffers RasterizeMesh writes: 8-bit palette indices,
depth, and the 32-bit output colors. -/
structure FrameBuffers where
  paletteIndexBuffer : List ℕ
  depthBuffer : List ℚ
  colorBuffer : List ℕ
deriving Repr

/-- One pixel's depth-tested shading in `RasterizeMesh` (part_006 lines
1775–1935): the depth test `!enableDepthRead || ndcZDepth < depth[pixel]`,
the shader dispatch, then the unconditional resolve of the (possibly
unchanged) palette index through the palette into the output color buffer. -/
def rasterizePixelShade (pixelShaderType : PixelShaderType)
    (enableDepthRead enableDepthWrite : Bool)
    (perspective : PixelShaderPerspectiveCorrection)
    (shaderTexture0 shaderTexture1 : PixelShaderTexture) (pixelShaderParam0 : ℚ)
    (horizon : PixelShaderHorizonMirror) (lighting : PixelShaderLighting)
    (palette : PixelShaderPalette) (xPercent yPercent : ℚ) (pixelIndex : ℤ)
    (st : FrameBuffers) : FrameBuffers :=
  if enableDepthRead = false ∨ perspective.ndcZDepth < listGetQ st.depthBuffer pixelIndex then
    let fb : PixelShaderFrameBuffer :=
      ⟨st.paletteIndexBuffer, st.depthBuffer, palette, xPercent, yPercent, pixelIndex, enableDepthWrite⟩
    let fb' := shadePixelDispatch pixelShaderType perspective shaderTexture0 shaderTexture1
      pixelShaderParam0 horizon lighting fb
    let writtenPaletteIndex := listGet fb'.colors pixelIndex
    { paletteIndexBuffer := fb'.colors
      depthBuffer := fb'.depth
      colorBuffer := listSet st.colorBuffer pixelIndex (listGet palette.colors (writtenPaletteIndex : ℤ)) }
  else st

/-- The texel each `AlphaTested*` variant tests against the transparent
index: the U-min/V-min variants sample with their clamped coordinate
transform, all other variants with the default clamp sampling. -/
def alphaTestSampledTexel (pixelShaderType : PixelShaderType)
    (perspective : PixelShaderPerspectiveCorrection) (texture : PixelShaderTexture)
    (pixelShaderParam0 : ℚ) : ℕ :=
  match pixelShaderType with
  | .AlphaTestedWithVariableTexCoordUMin => uMinTexel perspective texture pixelShaderParam0
  | .AlphaTestedWithVariableTexCoordVMin => vMinTexel perspective texture pixelShaderParam0
  | _ => alphaTestedTexel perspective texture

lemma shadePixelDispatch_transparent (t : PixelShaderType)
    (halpha : t.isAlphaTestedVariant = true)
    (perspective : PixelShaderPerspectiveCorrection)
    (tex0 tex1 : PixelShaderTexture) (param0 : ℚ)
    (horizon : PixelShaderHorizonMirror) (lighting : PixelShaderLighting)
    (fb : PixelShaderFrameBuffer)
    (htex : alphaTestSampledTexel t perspective tex0 param0 = PALETTE_INDEX_TRANSPARENT) :
    shadePixelDispatch t perspective tex0 tex1 param0 horizon lighting fb = fb := by
  cases t <;> simp_all [PixelShaderType.isAlphaTestedVariant, alphaTestSampledTexel,
    shadePixelDispatch, PixelShader_AlphaTested,
    PixelShader_AlphaTestedWithVariableTexCoordUMin,
    PixelShader_AlphaTestedWithVariableTexCoordVMin,
    PixelShader_AlphaTestedWithPaletteIndexLookup,
    PixelShader_AlphaTestedWithLightLevelColor,
    PixelShader_AlphaTestedWithLightLevelOpacity,
    PixelShader_AlphaTestedWithPreviousBrightnessLimit,
    PixelShader_AlphaTestedWithHorizonMirror]

/-- C6 (amended). Alpha-test transparency: under every `AlphaTested*` pixel
shader variant, when the sampled texel is the transparent palette index and
the pixel passes the depth test, the pixel shader writes nothing — the 8-bit
palette index buffer and the depth buffer are unchanged — but the rasterizer
still re-resolves the pixel's **existing** palette index through the palette
into the output color buffer (part_006 lines 1932–1934), so the output color
buffer is rewritten with the resolve of the unchanged index (unchanged in
value only when it already held that resolve). -/
theorem alpha_test_transparency_amended (t : PixelShaderType)
    (halpha : t.isAlphaTestedVariant = true)
    (enableDepthRead enableDepthWrite : Bool)
    (perspective : PixelShaderPerspectiveCorrection)
    (tex0 tex1 : PixelShaderTexture) (param0 : ℚ)
    (horizon : PixelShaderHorizonMirror) (lighting : PixelShaderLighting)
    (palette : PixelShaderPalette) (xPercent yPercent : ℚ) (pixelIndex : ℤ)
    (st : FrameBuffers)
    (htex : alphaTestSampledTexel t perspective tex0 param0 = PALETTE_INDEX_TRANSPARENT)
    (hdp : enableDepthRead = false ∨ perspective.ndcZDepth < listGetQ st.depthBuffer pixelIndex) :
    (rasterizePixelShade t enableDepthRead enableDepthWrite perspective tex0 tex1 param0
        horizon lighting palette xPercent yPercent pixelIndex st).paletteIndexBuffer =
      st.paletteIndexBuffer ∧
    (rasterizePixelShade t enableDepthRead enableDepthWrite perspective tex0 tex1 param0
        horizon lighting palette xPercent yPercent pixelIndex st).depthBuffer =
      st.depthBuffer ∧
    (rasterizePixelShade t enableDepthRead enableDepthWrite perspective tex0 tex1 param0
        horizon lighting palette xPercent yPercent pixelIndex st).colorBuffer =
      listSet st.colorBuffer pixelIndex
        (listGet palette.colors (listGet st.paletteIndexBuffer pixelIndex : ℤ)) := by
  unfold rasterizePixelShade
  rw [if_pos hdp]
  have hs := shadePixelDispatch_transparent t halpha perspective tex0 tex1 param0 horizon lighting
    ⟨st.paletteIndexBuffer, st.depthBuffer, palette, xPercent, yPercent, pixelIndex,
      enableDepthWrite⟩ htex
  simp [hs]

/-- Witness for C6's amended theorem on a concrete frame-buffer state. -/
theorem alpha_test_transparency_amended_witness :
    alphaTestSampledTexel .AlphaTested ⟨1, 0, 0⟩ (PixelShaderTexture.init [0] 1 1 .Default) 0 =
      PALETTE_INDEX_TRANSPARENT ∧
    (rasterizePixelShade .AlphaTested true true ⟨1, 0, 0⟩
        (PixelShaderTexture.init [0] 1 1 .Default) (PixelShaderTexture.init [] 0 0 .Default) 0
        ⟨0, 0, 0, false, 0⟩ ⟨[], 1, 1, 0, 0, 0⟩ ⟨[7], 1⟩ 0 0 0
        ⟨[0], [5], [0]⟩).paletteIndexBuffer = [0] :=
  ⟨by decide,
   (alpha_test_transparency_amended .AlphaTested (by decide) true true ⟨1, 0, 0⟩
      (PixelShaderTexture.init [0] 1 1 .Default) (PixelShaderTexture.init [] 0 0 .Default) 0
      ⟨0, 0, 0, false, 0⟩ ⟨[], 1, 1, 0, 0, 0⟩ ⟨[7], 1⟩ 0 0 0
      ⟨[0], [5], [0]⟩ (by decide) (by decide)).1.trans rfl⟩

/-- C6 counterexample: with the palette index buffer cleared to 0, the
output color buffer cleared to 0 and `palette[0] = 7`, an `AlphaTested`
shading of a transparent texel leaves palette index and depth untouched but
still changes the output color buffer at that pixel from 0 to 7 — the color
buffer is **not** unchanged, refuting the claim as stated. -/
theorem alpha_test_transparency_counterexample :
    alphaTestSampledTexel .AlphaTested ⟨1, 0, 0⟩ (PixelShaderTexture.init [0] 1 1 .Default) 0 =
      PALETTE_INDEX_TRANSPARENT ∧
    (rasterizePixelShade .AlphaTested true true ⟨1, 0, 0⟩
        (PixelShaderTexture.init [0] 1 1 .Default) (PixelShaderTexture.init [] 0 0 .Default) 0
        ⟨0, 0, 0, false, 0⟩ ⟨[], 1, 1, 0, 0, 0⟩ ⟨[7], 1⟩ 0 0 0
        ⟨[0], [5], [0]⟩).colorBuffer = [7] ∧
    (rasterizePixelShade .AlphaTested true true ⟨1, 0, 0⟩
        (PixelShaderTexture.init [0] 1 1 .Default) (PixelShaderTexture.init [] 0 0 .Default) 0
        ⟨0, 0, 0, false, 0⟩ ⟨[], 1, 1, 0, 0, 0⟩ ⟨[7], 1⟩ 0 0 0
        ⟨[0], [5], [0]⟩).colorBuffer ≠ [0] := by
  refine ⟨by decide, by decide, by decide⟩

lemma listGet_listSet_self (l : List ℕ) (i : ℤ) (v : ℕ) (h : i.toNat < l.length) :
    listGet (listSet l i v) i = v := by
  simp [listGet, listSet, List.getD_eq_getElem?_getD, List.getElem?_set_self', h]

lemma listGetQ_listSet_self (l : List ℚ) (i : ℤ) (v : ℚ) (h : i.toNat < l.length) :
    listGetQ (listSet l i v) i = v := by
  simp [listGetQ, listSet, List.getD_eq_getElem?_getD, List.getElem?_set_self', h]

lemma listSet_listSet {α : Type} (l : List α) (i : ℤ) (a b : α) :
    listSet (listSet l i a) i b = listSet l i b := by
  simp [listSet, List.set_set]

/-- With depth read+write on and a passing depth test, an `Opaque` pixel
shading writes its shaded palette index, the NDC depth and the resolved
color at the pixel. -/
lemma rasterizePixelShade_opaque_pass (p : PixelShaderPerspectiveCorrection)
    (t0 t1 : PixelShaderTexture) (param0 : ℚ) (horizon : PixelShaderHorizonMirror)
    (l : PixelShaderLighting) (palette : PixelShaderPalette) (xp yp : ℚ) (pix : ℤ)
    (st : FrameBuffers) (hpixP : pix.toNat < st.paletteIndexBuffer.length)
    (hpass : p.ndcZDepth < listGetQ st.depthBuffer pix) :
    rasterizePixelShade .Opaque true true p t0 t1 param0 horizon l palette xp yp pix st =
      ⟨listSet st.paletteIndexBuffer pix (opaqueShadedIndex p t0 l xp yp),
       listSet st.depthBuffer pix p.ndcZDepth,
       listSet st.colorBuffer pix
         (listGet palette.colors (opaqueShadedIndex p t0 l xp yp : ℤ))⟩ := by
  unfold rasterizePixelShade
  rw [if_pos (Or.inr hpass)]
  simp [shadePixelDispatch, PixelShader_Opaque, writeShaderResult,
    listGet_listSet_self _ _ _ hpixP]

/-- A failing depth test leaves the frame buffers untouched. -/
lemma rasterizePixelShade_fail (ty : PixelShaderType) (edw : Bool)
    (p : PixelShaderPerspectiveCorrection) (t0 t1 : PixelShaderTexture) (param0 : ℚ)
    (horizon : PixelShaderHorizonMirror) (l : PixelShaderLighting)
    (palette : PixelShaderPalette) (xp yp : ℚ) (pix : ℤ) (st : FrameBuffers)
    (hfail : ¬p.ndcZDepth < listGetQ st.depthBuffer pix) :
    rasterizePixelShade ty true edw p t0 t1 param0 horizon l palette xp yp pix st = st := by
  unfold rasterizePixelShade
  rw [if_neg (by simp [hfail])]

/-- C3. Depth monotonicity / order independence: two overlapping opaque
draws at one pixel, both with depth read and write on and both closer than
the existing depth, end — in either submission order — in exactly the state
produced by the draw with the smaller interpolated NDC depth alone: its
shaded palette index, its resolved color, its depth. -/
theorem depth_monotonicity (p1 p2 : PixelShaderPerspectiveCorrection)
    (t1 t2 texB : PixelShaderTexture) (l1 l2 : PixelShaderLighting) (param0 : ℚ)
    (horizon : PixelShaderHorizonMirror) (palette : PixelShaderPalette)
    (xp yp : ℚ) (pix : ℤ) (st : FrameBuffers)
    (hpixP : pix.toNat < st.paletteIndexBuffer.length)
    (hpixD : pix.toNat < st.depthBuffer.length)
    (hne : p1.ndcZDepth ≠ p2.ndcZDepth)
    (h1 : p1.ndcZDepth < listGetQ st.depthBuffer pix)
    (h2 : p2.ndcZDepth < listGetQ st.depthBuffer pix) :
    rasterizePixelShade .Opaque true true p2 t2 texB param0 horizon l2 palette xp yp pix
        (rasterizePixelShade .Opaque true true p1 t1 texB param0 horizon l1 palette xp yp pix st) =
      (if p1.ndcZDepth < p2.ndcZDepth
        then rasterizePixelShade .Opaque true true p1 t1 texB param0 horizon l1 palette xp yp pix st
        else rasterizePixelShade .Opaque true true p2 t2 texB param0 horizon l2 palette xp yp pix st) ∧
    rasterizePixelShade .Opaque true true p1 t1 texB param0 horizon l1 palette xp yp pix
        (rasterizePixelShade .Opaque true true p2 t2 texB param0 horizon l2 palette xp yp pix st) =
      (if p1.ndcZDepth < p2.ndcZDepth
        then rasterizePixelShade .Opaque true true p1 t1 texB param0 horizon l1 palette xp yp pix st
        else rasterizePixelShade .Opaque true true p2 t2 texB param0 horizon l2 palette xp yp pix st) := by
  have loser_second : ∀ (pa pb : PixelShaderPerspectiveCorrection) (ta tb : PixelShaderTexture)
      (la lb : PixelShaderLighting), pa.ndcZDepth < listGetQ st.depthBuffer pix →
      pa.ndcZDepth < pb.ndcZDepth →
      rasterizePixelShade .Opaque true true pb tb texB param0 horizon lb palette xp yp pix
          (rasterizePixelShade .Opaque true true pa ta texB param0 horizon la palette xp yp pix st) =
        rasterizePixelShade .Opaque true true pa ta texB param0 horizon la palette xp yp pix st := by
    intro pa pb ta tb la lb hpa hab
    rw [rasterizePixelShade_opaque_pass pa ta texB param0 horizon la palette xp yp pix st hpixP hpa]
    apply rasterizePixelShade_fail
    rw [listGetQ_listSet_self _ _ _ hpixD]
    exact fun h => absurd (h.trans hab) (lt_irrefl _)
  have winner_second : ∀ (pa pb : PixelShaderPerspectiveCorrection) (ta tb : PixelShaderTexture)
      (la lb : PixelShaderLighting), pa.ndcZDepth < listGetQ st.depthBuffer pix →
      pb.ndcZDepth < pa.ndcZDepth →
      rasterizePixelShade .Opaque true true pb tb texB param0 horizon lb palette xp yp pix
          (rasterizePixelShade .Opaque true true pa ta texB param0 horizon la palette xp yp pix st) =
        rasterizePixelShade .Opaque true true pb tb texB param0 horizon lb palette xp yp pix st := by
    intro pa pb ta tb la lb hpa hba
    have hpb : pb.ndcZDepth < listGetQ st.depthBuffer pix := hba.trans hpa
    rw [rasterizePixelShade_opaque_pass pa ta texB param0 horizon la palette xp yp pix st hpixP hpa]
    rw [rasterizePixelShade_opaque_pass pb tb texB param0 horizon lb palette xp yp pix _
      (by simpa [listSet] using hpixP)
      (by rw [listGetQ_listSet_self _ _ _ hpixD]; exact hba)]
    rw [rasterizePixelShade_opaque_pass pb tb texB param0 horizon lb palette xp yp pix st hpixP hpb]
    simp [listSet_listSet]
  rcases lt_or_gt_of_ne hne with hlt | hgt
  · rw [if_pos hlt]
    exact ⟨loser_second p1 p2 t1 t2 l1 l2 h1 hlt, winner_second p2 p1 t2 t1 l2 l1 h2 hlt⟩
  · rw [if_neg (not_lt.mpr hgt.le)]
    exact ⟨winner_second p1 p2 t1 t2 l1 l2 h1 hgt, loser_second p2 p1 t2 t1 l2 l1 h2 hgt⟩

/-- Witness for C3 at concrete draws: depth 1 beats depth 2 in both orders. -/
theorem depth_monotonicity_witness :
    rasterizePixelShade .Opaque true true ⟨2, 0, 0⟩ (PixelShaderTexture.init [4] 1 1 .Default)
        (PixelShaderTexture.init [] 0 0 .Default) 0 ⟨0, 0, 0, false, 0⟩
        ⟨[10, 11, 12, 13, 14], 1, 1, 0, 0, 0⟩ ⟨[90, 81, 72, 63, 54, 45, 36, 27, 18, 9, 25, 33, 41, 57, 66], 15⟩
        0 0 0
        (rasterizePixelShade .Opaque true true ⟨1, 0, 0⟩ (PixelShaderTexture.init [3] 1 1 .Default)
          (PixelShaderTexture.init [] 0 0 .Default) 0 ⟨0, 0, 0, false, 0⟩
          ⟨[10, 11, 12, 13, 14], 1, 1, 0, 0, 0⟩ ⟨[90, 81, 72, 63, 54, 45, 36, 27, 18, 9, 25, 33, 41, 57, 66], 15⟩
          0 0 0 ⟨[0], [100], [0]⟩) =
      rasterizePixelShade .Opaque true true ⟨1, 0, 0⟩ (PixelShaderTexture.init [3] 1 1 .Default)
        (PixelShaderTexture.init [] 0 0 .Default) 0 ⟨0, 0, 0, false, 0⟩
        ⟨[10, 11, 12, 13, 14], 1, 1, 0, 0, 0⟩ ⟨[90, 81, 72, 63, 54, 45, 36, 27, 18, 9, 25, 33, 41, 57, 66], 15⟩
        0 0 0 ⟨[0], [100], [0]⟩ := by
  have h := (depth_monotonicity ⟨1, 0, 0⟩ ⟨2, 0, 0⟩ (PixelShaderTexture.init [3] 1 1 .Default)
    (PixelShaderTexture.init [4] 1 1 .Default) (PixelShaderTexture.init [] 0 0 .Default)
    ⟨[10, 11, 12, 13, 14], 1, 1, 0, 0, 0⟩ ⟨[10, 11, 12, 13, 14], 1, 1, 0, 0, 0⟩ 0
    ⟨0, 0, 0, false, 0⟩ ⟨[90, 81, 72, 63, 54, 45, 36, 27, 18, 9, 25, 33, 41, 57, 66], 15⟩ 0 0 0
    ⟨[0], [100], [0]⟩ (by decide) (by decide) (by decide) (by decide) (by decide)).1
  rwa [if_pos (by decide)] at h

/-! ## Lighting (part_006 lines 1802–1878, 2335–2344) -/

/-- `SoftwareRenderer::Light`: world-space point plus falloff radii and the
derived reciprocal the shading loop multiplies by. -/
structure Light where
  worldPointX : ℚ
  worldPointY : ℚ
  worldPointZ : ℚ
  startRadius : ℚ
  endRadius : ℚ
  startEndRadiusDiff : ℚ
  startEndRadiusDiffRecip : ℚ
deriving Repr

/-- `SoftwareRenderer::setLightRadius` (part_006 lines 2335–2344). -/
def setLightRadius (light : Light) (startRadius endRadius : ℚ) : Light :=
  { light with
    startRadius := startRadius
    endRadius := endRadius
    startEndRadiusDiff := endRadius - startRadius
    startEndRadiusDiffRecip := 1 / (endRadius - startRadius) }

/-- One light's contribution given the pixel's distance to it
(part_006 lines 1810–1824). The source computes
`lightDistance = |light.worldPoint - shadedPoint|`; the claims are stated
in terms of that distance, which enters here as a parameter since exact
rational arithmetic has no square root. -/
def lightIntensityAtDistance (light : Light) (lightDistance : ℚ) : ℚ :=
  if lightDistance ≤ light.startRadius then 1
  else if light.endRadius ≤ lightDistance then 0
  else
    let lightDistancePercent := (lightDistance - light.startRadius) * light.startEndRadiusDiffRecip
    clampQ (1 - lightDistancePercent) 0 1

/-- The accumulation loop over the draw call's lights (part_006 lines
1805–1834): start from the ambient percent, add each contribution in order,
and clamp-and-break at 1.0. -/
def accumulateLightIntensityFrom : ℚ → List ℚ → ℚ
  | sum, [] => sum
  | sum, c :: rest =>
    let s := sum + c
    if 1 ≤ s then 1 else accumulateLightIntensityFrom s rest

lemma accumulateLightIntensityFrom_le_one (contribs : List ℚ) :
    ∀ sum : ℚ, sum ≤ 1 → accumulateLightIntensityFrom sum contribs ≤ 1 := by
  induction contribs with
  | nil => intro sum h; simpa [accumulateLightIntensityFrom] using h
  | cons c rest ih =>
    intro sum h
    unfold accumulateLightIntensityFrom
    dsimp only
    split_ifs with hs
    · exact le_refl 1
    · exact ih _ (le_of_not_le hs)

/-- C4. Light falloff boundary: with radii set through `setLightRadius`
(`startRadius < endRadius`), a light's contribution is exactly 1 at
distance ≤ `startRadius`, exactly 0 at distance ≥ `endRadius`, and
`clamp(1 - (d - startRadius)/(endRadius - startRadius), 0, 1)` in between;
and the accumulated intensity, starting at the ambient percent and adding
the lights' contributions in order, never exceeds 1 when the ambient
percent is at most 1. -/
theorem light_falloff_boundary (l0 : Light) (s e d : ℚ) (hse : s < e) :
    (d ≤ s → lightIntensityAtDistance (setLightRadius l0 s e) d = 1) ∧
    (e ≤ d → lightIntensityAtDistance (setLightRadius l0 s e) d = 0) ∧
    (s < d → d < e → lightIntensityAtDistance (setLightRadius l0 s e) d =
      clampQ (1 - (d - s) / (e - s)) 0 1) ∧
    (∀ (ambient : ℚ) (lightsAndDistances : List (Light × ℚ)), ambient ≤ 1 →
      accumulateLightIntensityFrom ambient
        (lightsAndDistances.map fun p => lightIntensityAtDistance p.1 p.2) ≤ 1) := by
  refine ⟨?_, ?_, ?_, ?_⟩
  · intro hd
    simp [lightIntensityAtDistance, setLightRadius, hd]
  · intro hd
    have : ¬d ≤ s := by linarith
    simp [lightIntensityAtDistance, setLightRadius, this, hd]
  · intro hsd hde
    have h1 : ¬d ≤ s := by linarith
    have h2 : ¬e ≤ d := by linarith
    simp only [lightIntensityAtDistance, setLightRadius, h1, h2, if_false]
    rw [mul_one_div]
  · intro ambient pairs h
    exact accumulateLightIntensityFrom_le_one _ ambient h

/-- Witness for C4 with `startRadius = 1`, `endRadius = 3`: contribution 1
at distance 1, one half at distance 2, 0 at distance 3; ambient 1/4 plus
any lights stays at most 1. -/
theorem light_falloff_boundary_witness :
    (1 : ℚ) < 3 ∧
      lightIntensityAtDistance (setLightRadius ⟨0, 0, 0, 0, 0, 0, 0⟩ 1 3) 1 = 1 ∧
      lightIntensityAtDistance (setLightRadius ⟨0, 0, 0, 0, 0, 0, 0⟩ 1 3) 3 = 0 ∧
      lightIntensityAtDistance (setLightRadius ⟨0, 0, 0, 0, 0, 0, 0⟩ 1 3) 2 =
        clampQ (1 - (2 - 1) / (3 - 1)) 0 1 ∧
      accumulateLightIntensityFrom (1/4)
        ([(setLightRadius ⟨0, 0, 0, 0, 0, 0, 0⟩ 1 3, 2)].map
          fun p => lightIntensityAtDistance p.1 p.2) ≤ 1 := by
  have h := light_falloff_boundary ⟨0, 0, 0, 0, 0, 0, 0⟩ 1 3 2 (by norm_num)
  exact ⟨by norm_num,
    (light_falloff_boundary ⟨0, 0, 0, 0, 0, 0, 0⟩ 1 3 1 (by norm_num)).1 (by norm_num),
    (light_falloff_boundary ⟨0, 0, 0, 0, 0, 0, 0⟩ 1 3 3 (by norm_num)).2.1 (by norm_num),
    h.2.2.1 (by norm_num) (by norm_num),
    h.2.2.2 (1/4) [(setLightRadius ⟨0, 0, 0, 0, 0, 0, 0⟩ 1 3, 2)] (by norm_num)⟩

/-! ## Light level selection and dithering (part_006 lines 1532–1536,
1840–1878) -/

/-- `DITHERING_MODE_NONE` (part_006 line 1532). -/
def DITHERING_MODE_NONE : ℤ := 0

/-- `DITHERING_MODE_CLASSIC` (part_006 line 1533). -/
def DITHERING_MODE_CLASSIC : ℤ := 1

/-- `DITHERING_MODE_MODERN` (part_006 line 1534). -/
def DITHERING_MODE_MODERN : ℤ := 2

/-- `DITHERING_MODE_MODERN_MASK_COUNT` (part_006 line 1536). -/
def DITHERING_MODE_MODERN_MASK_COUNT : ℤ := 4

/-- The light-table row selected for an accumulated intensity (part_006
lines 1840–1841):
`lastLightLevel - clamp(int(intensity * lightLevelCount), 0, lastLightLevel)`. -/
def computeLightLevel (lightIntensitySum : ℚ) (lighting : PixelShaderLighting) : ℤ :=
  let lightLevelReal := lightIntensitySum * lighting.lightLevelCountReal
  lighting.lastLightLevel - clampZ (cppToInt lightLevelReal) 0 lighting.lastLightLevel

/-- The dither decision `switch (ditheringMode)` (part_006 lines 1846–1872). -/
def shouldDitherPixel (ditheringMode : ℤ) (ditherBuffer : List Bool)
    (pixelIndex frameBufferPixelCount : ℤ)
    (lightIntensitySum lightLevelReal : ℚ) : Bool :=
  if ditheringMode = DITHERING_MODE_NONE then false
  else if ditheringMode = DITHERING_MODE_CLASSIC then
    ditherBuffer.getD pixelIndex.toNat false
  else if ditheringMode = DITHERING_MODE_MODERN then
    if lightIntensitySum < 1 then
      let lightLevelFraction := lightLevelReal - (⌊lightLevelReal⌋ : ℚ)
      let maskIndex := clampZ (cppToInt ((DITHERING_MODE_MODERN_MASK_COUNT : ℚ) * lightLevelFraction))
        0 (DITHERING_MODE_MODERN_MASK_COUNT - 1)
      ditherBuffer.getD (pixelIndex + maskIndex * frameBufferPixelCount).toNat false
    else false
  else false

/-- The final light level of a pixel: the computed row, bumped one step
darker when per-pixel lighting is active and the dither mask fires
(part_006 lines 1843–1878). -/
def ditheredLightLevel (requiresPerPixelLightIntensity : Bool) (ditheringMode : ℤ)
    (ditherBuffer : List Bool) (pixelIndex frameBufferPixelCount : ℤ)
    (lightIntensitySum : ℚ) (lighting : PixelShaderLighting) : ℤ :=
  let lightLevelReal := lightIntensitySum * lighting.lightLevelCountReal
  let lightLevel := lighting.lastLightLevel - clampZ (cppToInt lightLevelReal) 0 lighting.lastLightLevel
  if requiresPerPixelLightIntensity then
    if shouldDitherPixel ditheringMode ditherBuffer pixelIndex frameBufferPixelCount
        lightIntensitySum lightLevelReal then
      min (lightLevel + 1) lighting.lastLightLevel
    else lightLevel
  else lightLevel

lemma clampZ_mono {v1 v2 lo hi : ℤ} (hlohi : lo ≤ hi) (h : v1 ≤ v2) :
    clampZ v1 lo hi ≤ clampZ v2 lo hi := by
  unfold clampZ
  split_ifs <;> omega

lemma cppToInt_of_nonneg {q : ℚ} (h : 0 ≤ q) : cppToInt q = ⌊q⌋ := by
  simp [cppToInt, h]

/-- C5. Light-level mapping and dither step: the selected row is
`lastLightLevel - clamp(⌊intensity·lightLevelCount⌋, 0, lastLightLevel)`;
higher intensity never selects a higher (darker) row; when per-pixel
lighting is on and the dither mask fires, the level is bumped darker by
exactly one step clamped to `lastLightLevel`; without per-pixel lighting no
dithering applies; and the final level never exceeds `lastLightLevel`. -/
theorem light_level_mapping_and_dither (lighting : PixelShaderLighting)
    (ditheringMode : ℤ) (ditherBuffer : List Bool)
    (pixelIndex frameBufferPixelCount : ℤ) (i1 i2 : ℚ)
    (hcount : 0 ≤ lighting.lightLevelCountReal) (hlast : 0 ≤ lighting.lastLightLevel) :
    (0 ≤ i1 → computeLightLevel i1 lighting =
      lighting.lastLightLevel -
        clampZ ⌊i1 * lighting.lightLevelCountReal⌋ 0 lighting.lastLightLevel) ∧
    (0 ≤ i1 → i1 ≤ i2 → computeLightLevel i2 lighting ≤ computeLightLevel i1 lighting) ∧
    (shouldDitherPixel ditheringMode ditherBuffer pixelIndex frameBufferPixelCount i1
        (i1 * lighting.lightLevelCountReal) = true →
      ditheredLightLevel true ditheringMode ditherBuffer pixelIndex frameBufferPixelCount
        i1 lighting = min (computeLightLevel i1 lighting + 1) lighting.lastLightLevel) ∧
    (ditheredLightLevel false ditheringMode ditherBuffer pixelIndex frameBufferPixelCount
      i1 lighting = computeLightLevel i1 lighting) ∧
    (ditheredLightLevel true ditheringMode ditherBuffer pixelIndex frameBufferPixelCount
      i1 lighting ≤ lighting.lastLightLevel) := by
  refine ⟨?_, ?_, ?_, ?_, ?_⟩
  · intro h1
    unfold computeLightLevel
    dsimp only
    rw [cppToInt_of_nonneg (mul_nonneg h1 hcount)]
  · intro h1 h12
    unfold computeLightLevel
    have hle : cppToInt (i1 * lighting.lightLevelCountReal) ≤
        cppToInt (i2 * lighting.lightLevelCountReal) := by
      rw [cppToInt_of_nonneg (mul_nonneg h1 hcount),
        cppToInt_of_nonneg (mul_nonneg (h1.trans h12) hcount)]
      exact Int.floor_le_floor (mul_le_mul_of_nonneg_right h12 hcount)
    have := clampZ_mono hlast hle
    dsimp only
    omega
  · intro hd
    unfold ditheredLightLevel computeLightLevel
    dsimp only
    simp [hd]
  · unfold ditheredLightLevel computeLightLevel
    dsimp only
    simp
  · unfold ditheredLightLevel
    dsimp only
    have hc : 0 ≤ clampZ (cppToInt (i1 * lighting.lightLevelCountReal)) 0 lighting.lastLightLevel := by
      unfold clampZ
      split_ifs <;> omega
    split_ifs <;> omega

/-- Witness for C5 with a 13-row light table, intensity 1/3 (classic
dithering, mask true at the pixel). -/
theorem light_level_mapping_and_dither_witness :
    (0 : ℚ) ≤ (13 : ℚ) ∧
      computeLightLevel (1/3) ⟨[], 13, 13, 12, 256, 0⟩ =
        12 - clampZ ⌊(1/3 : ℚ) * 13⌋ 0 12 ∧
      ditheredLightLevel true DITHERING_MODE_CLASSIC [true] 0 1 (1/3) ⟨[], 13, 13, 12, 256, 0⟩ =
        min (computeLightLevel (1/3) ⟨[], 13, 13, 12, 256, 0⟩ + 1) 12 ∧
      ditheredLightLevel true DITHERING_MODE_CLASSIC [true] 0 1 (1/3) ⟨[], 13, 13, 12, 256, 0⟩ ≤ 12 := by
  have h := light_level_mapping_and_dither ⟨[], 13, 13, 12, 256, 0⟩ DITHERING_MODE_CLASSIC
    [true] 0 1 (1/3) (1/2) (by norm_num) (by norm_num)
  exact ⟨by norm_num, h.1 (by norm_num), h.2.2.1 (by decide), h.2.2.2.2⟩

/-! ## Buffer pool population (part_006 lines 2124–2173, 2278–2293)

Each pool is the sequence of its buffers' contents; `id` indexes the pool. -/

/-- `SoftwareRenderer::populateVertexBuffer` (part_006 lines 2124–2139):
compare the supplied element count with the buffer's, log-and-return on
mismatch, copy on match. -/
def populateVertexBuffer (vertexBuffers : List (List ℚ)) (id : ℕ)
    (vertices : List ℚ) : List (List ℚ) :=
  let buffer := vertexBuffers.getD id []
  if vertices.length ≠ buffer.length then vertexBuffers
  else vertexBuffers.set id vertices

/-- `SoftwareRenderer::populateAttributeBuffer` (part_006 lines 2141–2156). -/
def populateAttributeBuffer (attributeBuffers : List (List ℚ)) (id : ℕ)
    (attributes : List ℚ) : List (List ℚ) :=
  let buffer := attributeBuffers.getD id []
  if attributes.length ≠ buffer.length then attributeBuffers
  else attributeBuffers.set id attributes

/-- `SoftwareRenderer::populateIndexBuffer` (part_006 lines 2158–2173);
32-bit indices as `ℤ`. -/
def populateIndexBuffer (indexBuffers : List (List ℤ)) (id : ℕ)
    (indices : List ℤ) : List (List ℤ) :=
  let buffer := indexBuffers.getD id []
  if indices.length ≠ buffer.length then indexBuffers
  else indexBuffers.set id indices

/-- `SoftwareRenderer::populateUniformBuffer` (part_006 lines 2278–2293);
the uniform buffer's bytes as `ℕ`, its valid byte count as its length. -/
def populateUniformBuffer (uniformBuffers : List (List ℕ)) (id : ℕ)
    (data : List ℕ) : List (List ℕ) :=
  let buffer := uniformBuffers.getD id []
  if data.length ≠ buffer.length then uniformBuffers
  else uniformBuffers.set id data

/-- C9. Populate contract violation is a no-op: for each of the four
`populate*` calls, a supplied element count differing from the buffer's
declared count leaves every pool buffer unchanged; matching counts replace
exactly the addressed buffer's contents with the supplied elements. -/
theorem populate_contract (vertexBuffers attributeBuffers : List (List ℚ))
    (indexBuffers : List (List ℤ)) (uniformBuffers : List (List ℕ)) (id : ℕ)
    (vs attrs : List ℚ) (ixs : List ℤ) (bytes : List ℕ) :
    ((vs.length ≠ (vertexBuffers.getD id []).length →
        populateVertexBuffer vertexBuffers id vs = vertexBuffers) ∧
      (vs.length = (vertexBuffers.getD id []).length →
        populateVertexBuffer vertexBuffers id vs = vertexBuffers.set id vs)) ∧
    ((attrs.length ≠ (attributeBuffers.getD id []).length →
        populateAttributeBuffer attributeBuffers id attrs = attributeBuffers) ∧
      (attrs.length = (attributeBuffers.getD id []).length →
        populateAttributeBuffer attributeBuffers id attrs = attributeBuffers.set id attrs)) ∧
    ((ixs.length ≠ (indexBuffers.getD id []).length →
        populateIndexBuffer indexBuffers id ixs = indexBuffers) ∧
      (ixs.length = (indexBuffers.getD id []).length →
        populateIndexBuffer indexBuffers id ixs = indexBuffers.set id ixs)) ∧
    ((bytes.length ≠ (uniformBuffers.getD id []).length →
        populateUniformBuffer uniformBuffers id bytes = uniformBuffers) ∧
      (bytes.length = (uniformBuffers.getD id []).length →
        populateUniformBuffer uniformBuffers id bytes = uniformBuffers.set id bytes)) := by
  refine ⟨⟨fun hvn => ?_, fun hve => ?_⟩, ⟨fun han => ?_, fun hae => ?_⟩,
    ⟨fun hin => ?_, fun hie => ?_⟩, ⟨fun hun => ?_, fun hue => ?_⟩⟩
  · unfold populateVertexBuffer; dsimp only; rw [if_pos hvn]
  · unfold populateVertexBuffer; dsimp only; rw [if_neg (fun hne => hne hve)]
  · unfold populateAttributeBuffer; dsimp only; rw [if_pos han]
  · unfold populateAttributeBuffer; dsimp only; rw [if_neg (fun hne => hne hae)]
  · unfold populateIndexBuffer; dsimp only; rw [if_pos hin]
  · unfold populateIndexBuffer; dsimp only; rw [if_neg (fun hne => hne hie)]
  · unfold populateUniformBuffer; dsimp only; rw [if_pos hun]
  · unfold populateUniformBuffer; dsimp only; rw [if_neg (fun hne => hne hue)]

/-- Witness for C9: a mismatched populate leaves the one-buffer pool
unchanged; a matching populate replaces its contents. -/
theorem populate_contract_witness :
    populateVertexBuffer [[1, 2, 3]] 0 [9] = [[1, 2, 3]] ∧
      populateVertexBuffer [[1, 2, 3]] 0 [4, 5, 6] = [[4, 5, 6]] := by
  have h := populate_contract [[1, 2, 3]] [] [] [] 0 [9] [] [] []
  have h2 := populate_contract [[1, 2, 3]] [] [] [] 0 [4, 5, 6] [] [] []
  exact ⟨(h.1.1 (by decide)).trans rfl, (h2.1.2 (by decide)).trans rfl⟩

/-! ## Whole-frame submission (`SoftwareRenderer::submitFrame`, part_006
lines 2382–2624, with the stage functions it calls)

Two aspects of `double` arithmetic have no exact rational counterpart and
enter as parameters: the depth-clear value (`ClearFrameBuffers` fills the
depth buffer with IEEE `+∞`, which every finite depth compares less than)
and the Euclidean vector length used for light distances (irrational in
general). The pool-immutability claim C10 is independent of both. -/

/-- `Matrix4d` in the SoA helpers' column layout: `x`,`y`,`z`,`w` are the
four columns. -/
structure Matrix4 where
  x : Double4
  y : Double4
  z : Double4
  w : Double4
deriving Repr, Inhabited

/-- `Matrix4_MultiplyVectorN` (part_006 lines 174–190) with a
zero-initialized output, as every call site provides. -/
def Matrix4.mulVec (m : Matrix4) (v : Double4) : Double4 :=
  ⟨m.x.x * v.x + m.y.x * v.y + m.z.x * v.z + m.w.x * v.w,
   m.x.y * v.x + m.y.y * v.y + m.z.y * v.z + m.w.y * v.w,
   m.x.z * v.x + m.y.z * v.y + m.z.z * v.z + m.w.z * v.w,
   m.x.w * v.x + m.y.w * v.y + m.z.w * v.z + m.w.w * v.w⟩

/-- `Matrix4_MultiplyMatrixN` (part_006 lines 192–226): each output column
is `m0` applied to the corresponding column of `m1`. -/
def Matrix4.mulMat (m0 m1 : Matrix4) : Matrix4 :=
  ⟨m0.mulVec m1.x, m0.mulVec m1.y, m0.mulVec m1.z, m0.mulVec m1.w⟩

/-- Componentwise `Double4` addition (`Double4_AddN`). -/
def Double4.add (a b : Double4) : Double4 :=
  ⟨a.x + b.x, a.y + b.y, a.z + b.z, a.w + b.w⟩

/-- Componentwise `Double4` subtraction (`Double4_SubtractN`). -/
def Double4.sub (a b : Double4) : Double4 :=
  ⟨a.x - b.x, a.y - b.y, a.z - b.z, a.w - b.w⟩

/-- `VertexShaderType`. -/
inductive VertexShaderType where
  | Basic
  | RaisingDoor
  | Entity
deriving DecidableEq, Repr, Inhabited

/-- `RenderLightingType`. -/
inductive RenderLightingType where
  | PerMesh
  | PerPixel
deriving DecidableEq, Repr, Inhabited

/-- `SoftwareRenderer::ObjectTexture` (part_006 lines 1944–1984): one
backing store exposed as 8-bit or 32-bit texels depending on
`bytesPerTexel`; both views modelled directly. -/
structure ObjectTexture where
  texels8Bit : List ℕ
  texels32Bit : List ℕ
  width : ℤ
  height : ℤ
  widthReal : ℚ
  heightReal : ℚ
  texelCount : ℤ
  bytesPerTexel : ℤ
deriving Repr, Inhabited

/-- `RenderTransform`: translation, rotation, scale matrices. -/
structure RenderTransform where
  translation : Matrix4
  rotation : Matrix4
  scale : Matrix4
deriving Repr, Inhabited

/-- A uniform buffer as submitFrame reads it: a raw byte buffer with
type-punned reads, modelled as the two typed views the frame uses —
`get<RenderTransform>(index)` and `get<Double3>(0)` (pre-scale
translation). -/
structure UniformBufferSlot where
  transforms : List RenderTransform
  preScaleTranslation : Double3
deriving Repr, Inhabited

instance : Inhabited Double3 := ⟨⟨0, 0, 0⟩⟩

instance : Inhabited TextureSamplingType := ⟨.Default⟩

instance : Inhabited PixelShaderType := ⟨.Opaque⟩

instance : Inhabited Light := ⟨⟨0, 0, 0, 0, 0, 0, 0⟩⟩

/-- `RenderDrawCall` (part_004): the fixed 2-texture and max-8-light arrays
are carried as lists with their counts; `varyingTextures` pointer overrides
are `Option`s. -/
structure RenderDrawCall where
  transformBufferID : ℕ
  transformIndex : ℕ
  preScaleTranslationBufferID : ℤ
  vertexBufferID : ℕ
  texCoordBufferID : ℕ
  indexBufferID : ℕ
  textureID0 : ℤ
  textureID1 : ℤ
  varyingTexture0 : Option ℤ
  varyingTexture1 : Option ℤ
  textureSamplingType0 : TextureSamplingType
  textureSamplingType1 : TextureSamplingType
  lightingType : RenderLightingType
  lightPercent : ℚ
  lightIDs : List ℕ
  lightIdCount : ℕ
  vertexShaderType : VertexShaderType
  pixelShaderType : PixelShaderType
  pixelShaderParam0 : ℚ
  enableDepthRead : Bool
  enableDepthWrite : Bool
deriving Repr, Inhabited

/-- `RenderCamera`: the matrices and points `submitFrame` reads. -/
structure RenderCamera where
  viewMatrix : Matrix4
  projectionMatrix : Matrix4
  inverseViewMatrix : Matrix4
  inverseProjectionMatrix : Matrix4
  worldPoint : Double3
  horizonDir : Double3
deriving Repr

/-- `RenderFrameSettings`. -/
structure RenderFrameSettings where
  ambientPercent : ℚ
  paletteTextureID : ℕ
  lightTableTextureID : ℕ
  skyBgTextureID : ℕ
  ditheringMode : ℤ
deriving Repr

/-- The renderer instance state `submitFrame` can touch: the six resource
pools plus the frame-owned buffers, dithering state and profiler
counters. -/
structure RendererState where
  vertexBuffers : List (List ℚ)
  attributeBuffers : List (List ℚ)
  indexBuffers : List (List ℤ)
  uniformBuffers : List UniformBufferSlot
  objectTextures : List ObjectTexture
  lights : List Light
  paletteIndexBuffer : List ℕ
  depthBuffer : List ℚ
  frameBufferWidth : ℤ
  frameBufferHeight : ℤ
  ditherBuffer : List Bool
  ditheringMode : ℤ
  totalDrawCallCount : ℕ
  totalDepthTests : ℕ
  totalColorWrites : ℕ
  totalDrawCallTriangleCount : ℕ
  totalClipSpaceTriangleCount : ℕ
deriving Repr

/-- `CreateDitherBuffer` (part_006 lines 1544–1592): classic is one 2×2
checkerboard plane, modern is 4 planes of decreasing density, anything else
clears the buffer; plane `z` is stored at offset `z·width·height`,
row-major inside each plane. -/
def CreateDitherBuffer (width height : ℕ) (ditheringMode : ℤ) : List Bool :=
  if ditheringMode = DITHERING_MODE_CLASSIC then
    (List.range height).flatMap fun y =>
      (List.range width).map fun x => (x + y) % 2 == 0
  else if ditheringMode = DITHERING_MODE_MODERN then
    ((List.range height).flatMap fun y =>
      (List.range width).map fun x => ((x + y) % 2 == 0) || ((x % 2 == 1) && (y % 2 == 0))) ++
    ((List.range height).flatMap fun y =>
      (List.range width).map fun x => (x + y) % 2 == 0) ++
    ((List.range height).flatMap fun y =>
      (List.range width).map fun x => (x % 2 == 0) && (y % 2 == 0)) ++
    ((List.range height).flatMap fun _ =>
      (List.range width).map fun _ => false)
  else []

/-- `MAX_MESH_PROCESS_CACHES` (part_006 line 282). -/
def MAX_MESH_PROCESS_CACHES : ℕ := 8

/-- One entry of the mesh process caches: what the batch header loop stores
per draw call (part_006 lines 2506–2594). The C++ stores pointers into the
pools; since the pools are frozen for the frame, the pointed-to contents
are carried by value here. `modelViewProjMatrix` is filled in by
`CalculateVertexShaderTransforms`. -/
structure MeshProcessEntry where
  translationMatrix : Matrix4
  rotationMatrix : Matrix4
  scaleMatrix : Matrix4
  preScaleTranslationX : ℚ
  preScaleTranslationY : ℚ
  preScaleTranslationZ : ℚ
  modelViewProjMatrix : Matrix4
  vertices : List ℚ
  texCoords : List ℚ
  indices : List ℤ
  textureID0 : ℤ
  textureID1 : ℤ
  textureSamplingType0 : TextureSamplingType
  textureSamplingType1 : TextureSamplingType
  lightingType : RenderLightingType
  meshLightPercent : ℚ
  lights : List Light
  lightCount : ℕ
  pixelShaderType : PixelShaderType
  pixelShaderParam0 : ℚ
  enableDepthRead : Bool
  enableDepthWrite : Bool
deriving Repr, Inhabited

/-- The per-draw-call cache population of the batch header loop (part_006
lines 2506–2594): transform fetch from the uniform buffer, optional
pre-scale translation, vertex/texcoord/index buffer lookups,
varying-texture overrides, and light fetches. -/
def buildMeshProcessEntry (st : RendererState) (dc : RenderDrawCall) : MeshProcessEntry :=
  let transformBuffer := st.uniformBuffers.getD dc.transformBufferID default
  let transform := transformBuffer.transforms.getD dc.transformIndex default
  let preScaleTranslation : Double3 :=
    if 0 ≤ dc.preScaleTranslationBufferID then
      (st.uniformBuffers.getD dc.preScaleTranslationBufferID.toNat default).preScaleTranslation
    else ⟨0, 0, 0⟩
  { translationMatrix := transform.translation
    rotationMatrix := transform.rotation
    scaleMatrix := transform.scale
    preScaleTranslationX := preScaleTranslation.x
    preScaleTranslationY := preScaleTranslation.y
    preScaleTranslationZ := preScaleTranslation.z
    modelViewProjMatrix := default
    vertices := st.vertexBuffers.getD dc.vertexBufferID []
    texCoords := st.attributeBuffers.getD dc.texCoordBufferID []
    indices := st.indexBuffers.getD dc.indexBufferID []
    textureID0 := dc.varyingTexture0.getD dc.textureID0
    textureID1 := dc.varyingTexture1.getD dc.textureID1
    textureSamplingType0 := dc.textureSamplingType0
    textureSamplingType1 := dc.textureSamplingType1
    lightingType := dc.lightingType
    meshLightPercent := dc.lightPercent
    lights := (dc.lightIDs.take dc.lightIdCount).map fun id => st.lights.getD id default
    lightCount := dc.lightIdCount
    pixelShaderType := dc.pixelShaderType
    pixelShaderParam0 := dc.pixelShaderParam0
    enableDepthRead := dc.enableDepthRead
    enableDepthWrite := dc.enableDepthWrite }

/-- `CalculateVertexShaderTransforms` (part_006 lines 985–1124):
`modelViewProj = viewProj · (translation · (rotation · scale))`. -/
def calculateVertexShaderTransforms (viewProjMatrix : Matrix4)
    (entry : MeshProcessEntry) : MeshProcessEntry :=
  let rotationScaleMatrix := entry.rotationMatrix.mulMat entry.scaleMatrix
  let modelMatrix := entry.translationMatrix.mulMat rotationScaleMatrix
  { entry with modelViewProjMatrix := viewProjMatrix.mulMat modelMatrix }

/-- `ProcessMeshBufferLookups` for one mesh (part_006 lines 924–982):
iterate the index buffer's triangles, fetching 3-component positions
(homogenized with w = 1) and 2-component UVs. -/
def meshUnshadedTriangles (entry : MeshProcessEntry) : List ClipTriangle :=
  let triangleCount := entry.indices.length / 3
  (List.range triangleCount).map fun triangleIndex =>
    let indexBufferBase := triangleIndex * 3
    let index0 := entry.indices.getD indexBufferBase 0
    let index1 := entry.indices.getD (indexBufferBase + 1) 0
    let index2 := entry.indices.getD (indexBufferBase + 2) 0
    let vertexAt := fun (idx : ℤ) =>
      (⟨listGetQ entry.vertices (idx * 3), listGetQ entry.vertices (idx * 3 + 1),
        listGetQ entry.vertices (idx * 3 + 2), 1⟩ : Double4)
    let uvAt := fun (idx : ℤ) =>
      (⟨listGetQ entry.texCoords (idx * 2), listGetQ entry.texCoords (idx * 2 + 1)⟩ : Double2)
    ⟨vertexAt index0, vertexAt index1, vertexAt index2, uvAt index0, uvAt index1, uvAt index2⟩

/-- `VertexShader_Basic` (part_006 lines 472–484): model-view-projection. -/
def VertexShader_Basic (entry : MeshProcessEntry) (v : Double4) : Double4 :=
  entry.modelViewProjMatrix.mulVec v

/-- `VertexShader_RaisingDoor` (part_006 lines 486–557): pre-scale
translate, scale toward y = 0, translate back, rotate, translate, then the
view-projection. -/
def VertexShader_RaisingDoor (entry : MeshProcessEntry) (viewProjMatrix : Matrix4)
    (v : Double4) : Double4 :=
  let preScaleTranslation : Double4 :=
    ⟨entry.preScaleTranslationX, entry.preScaleTranslationY, entry.preScaleTranslationZ, 0⟩
  let vertexWithPreScaleTranslation := v.add preScaleTranslation
  let scaledVertex := entry.scaleMatrix.mulVec vertexWithPreScaleTranslation
  let resultVertex := scaledVertex.sub preScaleTranslation
  let rotatedResultVertex := entry.rotationMatrix.mulVec resultVertex
  let translatedResultVertex := entry.translationMatrix.mulVec rotatedResultVertex
  viewProjMatrix.mulVec translatedResultVertex

/-- `VertexShader_Entity` (part_006 lines 559–571): same math as Basic. -/
def VertexShader_Entity (entry : MeshProcessEntry) (v : Double4) : Double4 :=
  entry.modelViewProjMatrix.mulVec v

/-- One triangle through `ProcessVertexShadersInternal`'s dispatch
(part_006 lines 1170–1187); UVs are carried through unshaded. -/
def shadeTriangle (vertexShaderType : VertexShaderType) (entry : MeshProcessEntry)
    (viewProjMatrix : Matrix4) (tri : ClipTriangle) : ClipTriangle :=
  let shade := match vertexShaderType with
    | .Basic => VertexShader_Basic entry
    | .RaisingDoor => VertexShader_RaisingDoor entry viewProjMatrix
    | .Entity => VertexShader_Entity entry
  { tri with v0 := shade tri.v0, v1 := shade tri.v1, v2 := shade tri.v2 }

/-- `ProcessVertexShaders` for one mesh: shade all its triangles. -/
def processVertexShadersMesh (vertexShaderType : VertexShaderType)
    (viewProjMatrix : Matrix4) (entry : MeshProcessEntry) : List ClipTriangle :=
  (meshUnshadedTriangles entry).map (shadeTriangle vertexShaderType entry viewProjMatrix)

/-- `ProcessClipping` for one mesh (part_006 lines 1244–1528): concatenate
each shaded triangle's surviving clip results. -/
def processClippingMesh (shadedTriangles : List ClipTriangle) : List ClipTriangle :=
  shadedTriangles.flatMap processClipping

/-- `Double2` dot product. -/
def Double2.dot (a b : Double2) : ℚ := a.x * b.x + a.y * b.y

/-- Modelled from the spec: `Double2::rightPerp` (vector math header not in
the snapshot) — the edge-perpendicular fed to the half-space tests. -/
def Double2.rightPerp (v : Double2) : Double2 := ⟨-v.y, v.x⟩

/-- `IsScreenSpacePointInHalfSpace` (old `SoftwareRenderer.cpp` lines
593–600): `dot(point - planePoint, planeNormal) >= 0`. -/
def isPointInHalfSpace (point planePoint planeNormal : Double2) : Bool :=
  decide (0 ≤ (point.sub planePoint).dot planeNormal)

/-- `RendererUtils::getLowerBoundedPixel` (part_005 lines 293–296):
`std::clamp(static_cast<int>(std::ceil(projected - 0.50)), 0, frameDim)`.
`std::ceil` returns an integral double, so the `int` cast is exact and the
whole cast-of-ceil is `⌈projected - 1/2⌉`. -/
def getLowerBoundedPixel (projected : ℚ) (frameDim : ℤ) : ℤ :=
  clampZ ⌈projected - 1/2⌉ 0 frameDim

/-- `RendererUtils::getUpperBoundedPixel` (part_005 lines 298–301):
`std::clamp(static_cast<int>(std::floor(projected + 0.50)), 0, frameDim)`;
as above the cast-of-floor is exactly `⌊projected + 1/2⌋`. -/
def getUpperBoundedPixel (projected : ℚ) (frameDim : ℤ) : ℤ :=
  clampZ ⌊projected + 1/2⌋ 0 frameDim

/-- `[a, b)` as a list of integers, for the pixel loops. -/
def intRange (a b : ℤ) : List ℤ :=
  (List.range (b - a).toNat).map fun i => a + (i : ℤ)

/-- What `RasterizeMesh` mutates: the three frame buffers and the overdraw
counters `g_totalDepthTests`/`g_totalColorWrites`. -/
structure RasterizerState where
  frame : FrameBuffers
  totalDepthTests : ℕ
  totalColorWrites : ℕ
deriving Repr

/-- `RasterizeMesh` (part_006 lines 1604–1941): per surviving clip-space
triangle, perspective divide, screen mapping, back-face rejection, bounding
box, then the per-pixel loops with coverage tests, barycentric depth,
depth-test counting, perspective-correct attributes, per-pixel or per-mesh
lighting (light distances through `length3`, standing for the Euclidean
vector length), dithered light level, horizon-mirror data, and the
depth-tested shader dispatch plus color resolve of `rasterizePixelShade`. -/
def RasterizeMesh (entry : MeshProcessEntry) (clippedTriangles : List ClipTriangle)
    (ambientPercent : ℚ) (objectTextures : List ObjectTexture)
    (paletteTexture lightTableTexture skyBgTexture : ObjectTexture)
    (ditheringMode : ℤ) (ditherBuffer : List Bool)
    (viewMatrix projMatrix invViewMatrix invProjMatrix : Matrix4)
    (cameraWorldPoint cameraHorizonDir : Double3)
    (frameBufferWidth frameBufferHeight : ℤ) (length3 : ℚ → ℚ → ℚ → ℚ)
    (st0 : RasterizerState) : RasterizerState :=
  let frameBufferWidthReal : ℚ := (frameBufferWidth : ℚ)
  let frameBufferHeightReal : ℚ := (frameBufferHeight : ℚ)
  let frameBufferPixelCount := frameBufferWidth * frameBufferHeight
  let requiresTwoTextures : Bool :=
    (entry.pixelShaderType == .OpaqueWithAlphaTestLayer) ||
    (entry.pixelShaderType == .AlphaTestedWithPaletteIndexLookup)
  let requiresHorizonMirror : Bool := entry.pixelShaderType == .AlphaTestedWithHorizonMirror
  let requiresPerPixelLightIntensity : Bool := entry.lightingType == .PerPixel
  let requiresPerMeshLightIntensity : Bool := entry.lightingType == .PerMesh
  let shaderLighting : PixelShaderLighting :=
    { lightTableTexels := lightTableTexture.texels8Bit
      lightLevelCount := lightTableTexture.height
      lightLevelCountReal := (lightTableTexture.height : ℚ)
      lastLightLevel := lightTableTexture.height - 1
      texelsPerLightLevel := lightTableTexture.width
      lightLevel := 0 }
  let palette : PixelShaderPalette := ⟨paletteTexture.texels32Bit, paletteTexture.texelCount⟩
  -- Horizon mirror precomputation (part_006 lines 1644–1657).
  let horizonWorldPoint : Double3 :=
    ⟨cameraWorldPoint.x + cameraHorizonDir.x, cameraWorldPoint.y + cameraHorizonDir.y,
     cameraWorldPoint.z + cameraHorizonDir.z⟩
  let horizonCameraPoint := viewMatrix.mulVec
    ⟨horizonWorldPoint.x, horizonWorldPoint.y, horizonWorldPoint.z, 1⟩
  let horizonClipPoint := projMatrix.mulVec horizonCameraPoint
  let horizonNdcPoint := clipSpaceToNDC horizonClipPoint
  let horizonScreenSpacePoint :=
    ndcToScreenSpace horizonNdcPoint frameBufferWidthReal frameBufferHeightReal
  let fallbackSkyColor := skyBgTexture.texels8Bit.getD 0 0
  clippedTriangles.foldl (fun (stTri : RasterizerState) (tri : ClipTriangle) =>
    let ndc0 := clipSpaceToNDC tri.v0
    let ndc1 := clipSpaceToNDC tri.v1
    let ndc2 := clipSpaceToNDC tri.v2
    let screenSpace0 := ndcToScreenSpace ndc0 frameBufferWidthReal frameBufferHeightReal
    let screenSpace1 := ndcToScreenSpace ndc1 frameBufferWidthReal frameBufferHeightReal
    let screenSpace2 := ndcToScreenSpace ndc2 frameBufferWidthReal frameBufferHeightReal
    let screenSpace01 := screenSpace1.sub screenSpace0
    let screenSpace12 := screenSpace2.sub screenSpace1
    let screenSpace20 := screenSpace0.sub screenSpace2
    let screenSpace01Cross12 := screenSpace12.cross screenSpace01
    let screenSpace12Cross20 := screenSpace20.cross screenSpace12
    let screenSpace20Cross01 := screenSpace01.cross screenSpace20
    let isFrontFacing : Bool :=
      decide (0 < screenSpace01Cross12 + screenSpace12Cross20 + screenSpace20Cross01)
    if !isFrontFacing then stTri
    else
      let clipRecip0 : Double4 := ⟨1 / tri.v0.x, 1 / tri.v0.y, 1 / tri.v0.z, 1 / tri.v0.w⟩
      let clipRecip1 : Double4 := ⟨1 / tri.v1.x, 1 / tri.v1.y, 1 / tri.v1.z, 1 / tri.v1.w⟩
      let clipRecip2 : Double4 := ⟨1 / tri.v2.x, 1 / tri.v2.y, 1 / tri.v2.z, 1 / tri.v2.w⟩
      let clip0XDivW := tri.v0.x * clipRecip0.w
      let clip0YDivW := tri.v0.y * clipRecip0.w
      let clip0ZDivW := tri.v0.z * clipRecip0.w
      let clip1XDivW := tri.v1.x * clipRecip1.w
      let clip1YDivW := tri.v1.y * clipRecip1.w
      let clip1ZDivW := tri.v1.z * clipRecip1.w
      let clip2XDivW := tri.v2.x * clipRecip2.w
      let clip2YDivW := tri.v2.y * clipRecip2.w
      let clip2ZDivW := tri.v2.z * clipRecip2.w
      let screenSpace01Perp := screenSpace01.rightPerp
      let screenSpace12Perp := screenSpace12.rightPerp
      let screenSpace20Perp := screenSpace20.rightPerp
      let xMin := min screenSpace0.x (min screenSpace1.x screenSpace2.x)
      let xMax := max screenSpace0.x (max screenSpace1.x screenSpace2.x)
      let yMin := min screenSpace0.y (min screenSpace1.y screenSpace2.y)
      let yMax := max screenSpace0.y (max screenSpace1.y screenSpace2.y)
      let xStart := getLowerBoundedPixel xMin frameBufferWidth
      let xEnd := getUpperBoundedPixel xMax frameBufferWidth
      let yStart := getLowerBoundedPixel yMin frameBufferHeight
      let yEnd := getUpperBoundedPixel yMax frameBufferHeight
      let uv0XDivW := tri.uv0.x * clipRecip0.w
      let uv0YDivW := tri.uv0.y * clipRecip0.w
      let uv1XDivW := tri.uv1.x * clipRecip1.w
      let uv1YDivW := tri.uv1.y * clipRecip1.w
      let uv2XDivW := tri.uv2.x * clipRecip2.w
      let uv2YDivW := tri.uv2.y * clipRecip2.w
      let texture0 := objectTextures.getD entry.textureID0.toNat default
      let shaderTexture0 := PixelShaderTexture.init texture0.texels8Bit texture0.width
        texture0.height entry.textureSamplingType0
      let shaderTexture1 :=
        if requiresTwoTextures then
          let texture1 := objectTextures.getD entry.textureID1.toNat default
          PixelShaderTexture.init texture1.texels8Bit texture1.width texture1.height
            entry.textureSamplingType1
        else PixelShaderTexture.init [] 0 0 entry.textureSamplingType1
      (intRange yStart yEnd).foldl (fun (stRow : RasterizerState) (y : ℤ) =>
        let yPercent := ((y : ℚ) + 1/2) * (1 / frameBufferHeightReal)
        (intRange xStart xEnd).foldl (fun (stPix : RasterizerState) (x : ℤ) =>
          let xPercent := ((x : ℚ) + 1/2) * (1 / frameBufferWidthReal)
          let pixelCenter : Double2 :=
            ⟨xPercent * frameBufferWidthReal, yPercent * frameBufferHeightReal⟩
          let inHalfSpace0 := isPointInHalfSpace pixelCenter screenSpace0 screenSpace01Perp
          let inHalfSpace1 := isPointInHalfSpace pixelCenter screenSpace1 screenSpace12Perp
          let inHalfSpace2 := isPointInHalfSpace pixelCenter screenSpace2 screenSpace20Perp
          if inHalfSpace0 && inHalfSpace1 && inHalfSpace2 then
            let ss0 := screenSpace01
            let ss1 := screenSpace2.sub screenSpace0
            let ss2 := pixelCenter.sub screenSpace0
            let dot00 := ss0.dot ss0
            let dot01 := ss0.dot ss1
            let dot11 := ss1.dot ss1
            let dot20 := ss2.dot ss0
            let dot21 := ss2.dot ss1
            let denominator := dot00 * dot11 - dot01 * dot01
            let v := (dot11 * dot20 - dot01 * dot21) / denominator
            let w := (dot00 * dot21 - dot01 * dot20) / denominator
            let u := 1 - v - w
            let ndcZDepth := ndc0.z * u + ndc1.z * v + ndc2.z * w
            let pixelIndex := x + y * frameBufferWidth
            let stCounted := { stPix with
              totalDepthTests := stPix.totalDepthTests +
                (if entry.enableDepthRead then 1 else 0) }
            -- The source computes the rest only after a passing depth
            -- test; everything below is pure, and `rasterizePixelShade`
            -- re-checks the same test before any write.
            let shaderClipSpacePointX := clip0XDivW * u + clip1XDivW * v + clip2XDivW * w
            let shaderClipSpacePointY := clip0YDivW * u + clip1YDivW * v + clip2YDivW * w
            let shaderClipSpacePointZ := clip0ZDivW * u + clip1ZDivW * v + clip2ZDivW * w
            let shaderClipSpacePointW := clipRecip0.w * u + clipRecip1.w * v + clipRecip2.w * w
            let shaderClipSpaceWRecip := 1 / shaderClipSpacePointW
            let texelPercentX := (uv0XDivW * u + uv1XDivW * v + uv2XDivW * w) * shaderClipSpaceWRecip
            let texelPercentY := (uv0YDivW * u + uv1YDivW * v + uv2YDivW * w) * shaderClipSpaceWRecip
            let shaderHomogeneousSpacePoint : Double4 :=
              ⟨shaderClipSpacePointX * shaderClipSpaceWRecip,
               shaderClipSpacePointY * shaderClipSpaceWRecip,
               shaderClipSpacePointZ * shaderClipSpaceWRecip, shaderClipSpaceWRecip⟩
            let shaderCameraSpacePoint := invProjMatrix.mulVec shaderHomogeneousSpacePoint
            let shaderWorldSpacePoint := invViewMatrix.mulVec shaderCameraSpacePoint
            let lightIntensitySum :=
              if requiresPerPixelLightIntensity then
                accumulateLightIntensityFrom ambientPercent
                  ((entry.lights.take entry.lightCount).map fun light =>
                    lightIntensityAtDistance light
                      (length3 (light.worldPointX - shaderWorldSpacePoint.x)
                        (light.worldPointY - shaderWorldSpacePoint.y)
                        (light.worldPointZ - shaderWorldSpacePoint.z)))
              else if requiresPerMeshLightIntensity then entry.meshLightPercent
              else 0
            let shaderLighting' := { shaderLighting with
              lightLevel := ditheredLightLevel requiresPerPixelLightIntensity ditheringMode
                ditherBuffer pixelIndex frameBufferPixelCount lightIntensitySum shaderLighting }
            let horizon : PixelShaderHorizonMirror :=
              if requiresHorizonMirror then
                let reflectedScreenSpacePointY :=
                  horizonScreenSpacePoint.y + (horizonScreenSpacePoint.y - pixelCenter.y)
                let reflectedPixelX := cppToInt pixelCenter.x
                let reflectedPixelY := cppToInt reflectedScreenSpacePointY
                { horizonScreenSpacePointX := horizonScreenSpacePoint.x
                  horizonScreenSpacePointY := horizonScreenSpacePoint.y
                  reflectedPixelIndex := reflectedPixelX + reflectedPixelY * frameBufferWidth
                  isReflectedPixelInFrameBuffer :=
                    decide (0 ≤ reflectedPixelX) && decide (reflectedPixelX < frameBufferWidth) &&
                    decide (0 ≤ reflectedPixelY) && decide (reflectedPixelY < frameBufferHeight)
                  fallbackSkyColor := fallbackSkyColor }
              else
                { horizonScreenSpacePointX := horizonScreenSpacePoint.x
                  horizonScreenSpacePointY := horizonScreenSpacePoint.y
                  reflectedPixelIndex := 0
                  isReflectedPixelInFrameBuffer := false
                  fallbackSkyColor := fallbackSkyColor }
            let depthTestPasses : Bool := !entry.enableDepthRead ||
              decide (ndcZDepth < listGetQ stPix.frame.depthBuffer pixelIndex)
            let frame' := rasterizePixelShade entry.pixelShaderType entry.enableDepthRead
              entry.enableDepthWrite ⟨ndcZDepth, texelPercentX, texelPercentY⟩
              shaderTexture0 shaderTexture1 entry.pixelShaderParam0 horizon shaderLighting'
              palette xPercent yPercent pixelIndex stCounted.frame
            { stCounted with
              frame := frame'
              totalColorWrites := stCounted.totalColorWrites +
                (if depthTestPasses then 1 else 0) }
          else stPix) stRow) stTri) st0

/-- How many consecutive draw calls from `startIndex` share the bootstrap
call's vertex shader, capped at `MAX_MESH_PROCESS_CACHES` and the remaining
count (part_006 lines 2487–2597). -/
def drawCallSequenceLength (drawCalls : List RenderDrawCall) (startIndex : ℕ) : ℕ :=
  let maxDrawCallSequenceCount := min MAX_MESH_PROCESS_CACHES (drawCalls.length - startIndex)
  let vertexShaderType := (drawCalls.getD startIndex default).vertexShaderType
  (((drawCalls.drop startIndex).take maxDrawCallSequenceCount).takeWhile
    fun dc => dc.vertexShaderType == vertexShaderType).length

/-- The draw-call batch loop of `submitFrame` (part_006 lines 2484–2623):
each round consumes one batch — cache population, vertex shader transforms,
buffer lookups, vertex shading, clipping, then one `RasterizeMesh` per mesh
— and advances by the batch length. `fuel` bounds the rounds; since a batch
consumes at least one draw call, `drawCalls.length` rounds always finish
the list. -/
def submitFrameLoop (camera : RenderCamera) (viewProjMatrix : Matrix4)
    (settings : RenderFrameSettings)
    (paletteTexture lightTableTexture skyBgTexture : ObjectTexture)
    (length3 : ℚ → ℚ → ℚ → ℚ) (drawCalls : List RenderDrawCall) :
    ℕ → ℕ → RendererState × List ℕ → RendererState × List ℕ
  | 0, _, acc => acc
  | Nat.succ fuel, drawCallIndex, (st, colorBuffer) =>
    if drawCallIndex < drawCalls.length then
      let drawCallSequenceCount := drawCallSequenceLength drawCalls drawCallIndex
      let batch := (drawCalls.drop drawCallIndex).take drawCallSequenceCount
      let vertexShaderType := (drawCalls.getD drawCallIndex default).vertexShaderType
      let entries := batch.map fun dc =>
        calculateVertexShaderTransforms viewProjMatrix (buildMeshProcessEntry st dc)
      let totalUnshadedTriangles := entries.foldl
        (fun n entry => n + (meshUnshadedTriangles entry).length) 0
      let rasterized := entries.foldl
        (fun (acc : RasterizerState × ℕ) entry =>
          let shadedTriangles := processVertexShadersMesh vertexShaderType viewProjMatrix entry
          let clippedTriangles := processClippingMesh shadedTriangles
          (RasterizeMesh entry clippedTriangles settings.ambientPercent st.objectTextures
            paletteTexture lightTableTexture skyBgTexture st.ditheringMode st.ditherBuffer
            camera.viewMatrix camera.projectionMatrix camera.inverseViewMatrix
            camera.inverseProjectionMatrix camera.worldPoint camera.horizonDir
            st.frameBufferWidth st.frameBufferHeight length3 acc.1,
           acc.2 + clippedTriangles.length))
        (⟨⟨st.paletteIndexBuffer, st.depthBuffer, colorBuffer⟩,
          st.totalDepthTests, st.totalColorWrites⟩, 0)
      let st' := { st with
        paletteIndexBuffer := rasterized.1.frame.paletteIndexBuffer
        depthBuffer := rasterized.1.frame.depthBuffer
        totalDepthTests := rasterized.1.totalDepthTests
        totalColorWrites := rasterized.1.totalColorWrites
        totalDrawCallTriangleCount := st.totalDrawCallTriangleCount + totalUnshadedTriangles
        totalClipSpaceTriangleCount := st.totalClipSpaceTriangleCount + rasterized.2 }
      submitFrameLoop camera viewProjMatrix settings paletteTexture lightTableTexture
        skyBgTexture length3 drawCalls fuel (drawCallIndex + drawCallSequenceCount)
        (st', rasterized.1.frame.colorBuffer)
    else (st, colorBuffer)

/-- `SoftwareRenderer::submitFrame` (part_006 lines 2382–2624): refresh the
dither buffer when the requested mode changed, fetch the frame's palette /
light table / sky textures, clear the frame buffers (`depthClearValue`
stands for the IEEE `+∞` fill) and triangle counters, set the draw call
count, compute the view-projection matrix, then run the batch loop. Returns
the renderer state and the caller-owned output color buffer. -/
def submitFrame (st : RendererState) (camera : RenderCamera)
    (drawCalls : List RenderDrawCall) (settings : RenderFrameSettings)
    (length3 : ℚ → ℚ → ℚ → ℚ) (depthClearValue : ℚ) :
    RendererState × List ℕ :=
  let st1 :=
    if st.ditheringMode ≠ settings.ditheringMode then
      { st with
        ditheringMode := settings.ditheringMode
        ditherBuffer := CreateDitherBuffer st.frameBufferWidth.toNat
          st.frameBufferHeight.toNat settings.ditheringMode }
    else st
  let paletteTexture := st1.objectTextures.getD settings.paletteTextureID default
  let lightTableTexture := st1.objectTextures.getD settings.lightTableTextureID default
  let skyBgTexture := st1.objectTextures.getD settings.skyBgTextureID default
  let frameBufferPixelCount := (st1.frameBufferWidth * st1.frameBufferHeight).toNat
  let st2 := { st1 with
    paletteIndexBuffer := List.replicate frameBufferPixelCount 0
    depthBuffer := List.replicate frameBufferPixelCount depthClearValue
    totalDepthTests := 0
    totalColorWrites := 0
    totalClipSpaceTriangleCount := 0
    totalDrawCallTriangleCount := 0
    totalDrawCallCount := drawCalls.length }
  let colorBuffer := List.replicate frameBufferPixelCount 0
  let viewProjMatrix := camera.projectionMatrix.mulMat camera.viewMatrix
  submitFrameLoop camera viewProjMatrix settings paletteTexture lightTableTexture
    skyBgTexture length3 drawCalls drawCalls.length 0 (st2, colorBuffer)

/-- The batch loop threads the pools through unchanged: each round only
replaces the frame buffers, dither state and counters of the state. -/
lemma submitFrameLoop_pools (camera : RenderCamera) (viewProjMatrix : Matrix4)
    (settings : RenderFrameSettings)
    (paletteTexture lightTableTexture skyBgTexture : ObjectTexture)
    (length3 : ℚ → ℚ → ℚ → ℚ) (drawCalls : List RenderDrawCall) :
    ∀ (fuel drawCallIndex : ℕ) (st : RendererState) (colorBuffer : List ℕ),
      (submitFrameLoop camera viewProjMatrix settings paletteTexture lightTableTexture
          skyBgTexture length3 drawCalls fuel drawCallIndex (st, colorBuffer)).1.vertexBuffers
            = st.vertexBuffers ∧
      (submitFrameLoop camera viewProjMatrix settings paletteTexture lightTableTexture
          skyBgTexture length3 drawCalls fuel drawCallIndex (st, colorBuffer)).1.attributeBuffers
            = st.attributeBuffers ∧
      (submitFrameLoop camera viewProjMatrix settings paletteTexture lightTableTexture
          skyBgTexture length3 drawCalls fuel drawCallIndex (st, colorBuffer)).1.indexBuffers
            = st.indexBuffers ∧
      (submitFrameLoop camera viewProjMatrix settings paletteTexture lightTableTexture
          skyBgTexture length3 drawCalls fuel drawCallIndex (st, colorBuffer)).1.uniformBuffers
            = st.uniformBuffers ∧
      (submitFrameLoop camera viewProjMatrix settings paletteTexture lightTableTexture
          skyBgTexture length3 drawCalls fuel drawCallIndex (st, colorBuffer)).1.objectTextures
            = st.objectTextures ∧
      (submitFrameLoop camera viewProjMatrix settings paletteTexture lightTableTexture
          skyBgTexture length3 drawCalls fuel drawCallIndex (st, colorBuffer)).1.lights
            = st.lights := by
  intro fuel
  induction fuel with
  | zero => intro drawCallIndex st colorBuffer; exact ⟨rfl, rfl, rfl, rfl, rfl, rfl⟩
  | succ fuel ih =>
    intro drawCallIndex st colorBuffer
    unfold submitFrameLoop
    by_cases h : drawCallIndex < drawCalls.length
    · rw [if_pos h]
      exact ih _ _ _
    · rw [if_neg h]
      exact ⟨rfl, rfl, rfl, rfl, rfl, rfl⟩

/-- C10: `submitFrame` never modifies any pool-held resource — the vertex
buffer, attribute buffer, index buffer, uniform buffer, object texture and
light pools (contents and allocated IDs alike) are identical before and
after the call; only the frame buffers, the dither buffer / dithering
mode, the transient per-batch caches and the profiler counters change. -/
theorem submit_frame_pool_immutability (st : RendererState) (camera : RenderCamera)
    (drawCalls : List RenderDrawCall) (settings : RenderFrameSettings)
    (length3 : ℚ → ℚ → ℚ → ℚ) (depthClearValue : ℚ) :
    (submitFrame st camera drawCalls settings length3 depthClearValue).1.vertexBuffers
      = st.vertexBuffers ∧
    (submitFrame st camera drawCalls settings length3 depthClearValue).1.attributeBuffers
      = st.attributeBuffers ∧
    (submitFrame st camera drawCalls settings length3 depthClearValue).1.indexBuffers
      = st.indexBuffers ∧
    (submitFrame st camera drawCalls settings length3 depthClearValue).1.uniformBuffers
      = st.uniformBuffers ∧
    (submitFrame st camera drawCalls settings length3 depthClearValue).1.objectTextures
      = st.objectTextures ∧
    (submitFrame st camera drawCalls settings length3 depthClearValue).1.lights
      = st.lights := by
  unfold submitFrame
  by_cases h : st.ditheringMode ≠ settings.ditheringMode
  · rw [if_pos h]
    exact submitFrameLoop_pools _ _ _ _ _ _ _ _ _ _ _ _
  · rw [if_neg h]
    exact submitFrameLoop_pools _ _ _ _ _ _ _ _ _ _ _ _

end SWRender
